import Mathlib

/-!
Verification of the agent-based epidemic simulation core (Go sources:
update/health-state engine, vaccination rollout, behavioral adaptation,
movement engine, environment feedback loop).

Shallow embedding conventions:
* Go float64 arithmetic is idealized as exact rational arithmetic (ℚ).
* The transcendental library calls (math.Sqrt, math.Exp, math.Log,
  math.Cos/Sin of the sampled angle) have no exact rational counterpart;
  they are abstracted as fields of a `TransFns` parameter that is threaded
  to exactly the places where the Go code calls them.  `cos2pi u` stands
  for cos(2·π·u) applied directly to the unit draw u (the Go code first
  forms angle = u·2·π and then takes cos/sin; the composition is abstracted
  as one function since 2·π is irrational).
* The injected RNG (Go *rand.Rand, rng.Float64()) is a stream `inj : ℕ → ℚ`
  with an explicit cursor; each Float64 call consumes one position.
* The package-global source `math/rand` (used by rand.Perm in
  UpdateVaccination and rand.Float64 in updateMove / UpdateMovementPattern)
  is modelled separately by `GlobalRand`, with its own cursors, so that the
  dependence of the core on the two distinct sources is visible.
* Go pointers: a population slot is `Option Individual` (nil = none);
  pointer identity of an agent inside its population is modelled by the
  agent's list index, which is threaded to the neighbor queries
  (the Go code excludes `other == who` by pointer comparison).
* The comparison `dist(a,b) <= r` (Euclidean distance via math.Sqrt) is
  embedded by squaring: since the real square root is monotone and
  nonnegative, sqrt(s) <= r iff (0 <= r and s <= r²).
-/

namespace PFSim

/-- Abstracted transcendental functions (see file header). -/
structure TransFns where
  sqrtFn : ℚ → ℚ
  expFn : ℚ → ℚ
  logFn : ℚ → ℚ
  cos2pi : ℚ → ℚ
  sin2pi : ℚ → ℚ

/-- The package-global math/rand source: `perm c n` models the result of the
c-th call to rand.Perm(n); `flt j` models the j-th top-level rand.Float64(). -/
structure GlobalRand where
  perm : ℕ → ℕ → List ℕ
  flt : ℕ → ℚ

/-- HealthStatus constants from datatypes.go. -/
inductive HealthStatus where
  | Healthy
  | Susceptible
  | Infected
  | Recovered
  | Dead
deriving DecidableEq

/-- moveType constants from datatypes.go. -/
inductive MoveType where
  | Walk
  | Train
  | Flight
deriving DecidableEq

/-- Disease record from datatypes.go (immutable; shared by reference in Go). -/
structure Disease where
  name : String
  transmissionRate : ℚ
  transmissionDistance : ℚ
  recoveryRate : ℚ
  mortalityRate : ℚ
  latentPeriod : ℤ
  infectiousPeriod : ℤ
  immunityDuration : ℤ
deriving DecidableEq

/-- MovementPattern record from datatypes.go. -/
structure MovementPattern where
  moveType : MoveType
  moveRadius : ℚ
deriving DecidableEq

/-- OrderedPair record from datatypes.go. -/
structure OrderedPair where
  x : ℚ
  y : ℚ
deriving DecidableEq

/-- Individual record from datatypes.go.  The Go field name
daysSinceVacination (sic) is kept. -/
structure Individual where
  gender : String
  age : ℤ
  healthStatus : HealthStatus
  disease : Option Disease
  daysInfected : ℤ
  daysSinceRecovery : ℤ
  daysSinceVacination : ℤ
  vaccinated : Bool
  hygieneLevel : ℚ
  socialDistanceCompliance : ℚ
  movementPattern : MovementPattern
  position : OrderedPair
  inHospital : Bool
deriving DecidableEq

/-- Environment record from datatypes.go; population slots may be nil. -/
structure Environment where
  population : List (Option Individual)
  areaSize : ℚ
  socialDistanceThreshold : ℚ
  hygieneLevel : ℚ
  mobilityRate : ℚ
  vaccinationRate : ℚ
  medicalCareLevel : ℚ
  medicalCapacity : ℤ
deriving DecidableEq

/-- clamp01 from helper_functions.go. -/
def clamp01 (x : ℚ) : ℚ :=
  if x < 0 then 0 else if x > 1 then 1 else x

/-- Squared Euclidean distance; dist in helper_functions.go is its square root. -/
def sqDist (a b : OrderedPair) : ℚ :=
  (a.x - b.x) * (a.x - b.x) + (a.y - b.y) * (a.y - b.y)

/-- Embeds the Go comparison dist(a,b) <= r by squaring (sqrt is monotone and
nonnegative, so sqrt(s) <= r iff 0 <= r and s <= r²). -/
def distLe (a b : OrderedPair) (r : ℚ) : Prop :=
  0 ≤ r ∧ sqDist a b ≤ r * r

instance (a b : OrderedPair) (r : ℚ) : Decidable (distLe a b r) := by
  unfold distLe; infer_instance

/-- Go math.Round (round half away from zero). -/
def goRound (q : ℚ) : ℤ :=
  if q < 0 then -⌊-q + 1/2⌋ else ⌊q + 1/2⌋

/-- validProb from the health-update file: p >= 0 and p <= 1. -/
def validProb (p : ℚ) : Prop := 0 ≤ p ∧ p ≤ 1

instance (p : ℚ) : Decidable (validProb p) := by
  unfold validProb; infer_instance

/-- The combined probability guard of UpdateIndividualHealthStatus:
all of a..e valid and c+d <= 1. -/
def validProbs (a b c d e : ℚ) : Prop :=
  validProb a ∧ validProb b ∧ validProb c ∧ validProb d ∧ validProb e ∧ c + d ≤ 1

instance (a b c d e : ℚ) : Decidable (validProbs a b c d e) := by
  unfold validProbs; infer_instance

/-- infectedNeighbors: squared distances of the infected agents (other than
the agent at selfIdx) within radius r of who.position, in population order.
The Go function returns (pointer, distance) pairs; only the distances are
consumed downstream, so the list of squared distances is kept (computeB
applies sqrtFn to recover the distance). -/
def infectedNeighborSq (who : Individual) (selfIdx : ℕ) (r : ℚ) :
    List (Option Individual) → ℕ → List ℚ
  | [], _ => []
  | o :: rest, j =>
    let tail := infectedNeighborSq who selfIdx r rest (j + 1)
    match o with
    | none => tail
    | some other =>
      if j ≠ selfIdx ∧ other.healthStatus = HealthStatus.Infected ∧
          distLe who.position other.position r then
        sqDist who.position other.position :: tail
      else tail

/-- infectedNeighbors entry point (population order, index 0 first). -/
def infectedNeighbors (pop : List (Option Individual)) (selfIdx : ℕ)
    (who : Individual) (r : ℚ) : List ℚ :=
  infectedNeighborSq who selfIdx r pop 0

/-- neighborsWithin: all agents (any status, other than the agent at selfIdx)
within radius r; returns the neighbor records themselves.  The Go function
returns an empty list when r <= 0. -/
def neighborsWithinAux (who : Individual) (selfIdx : ℕ) (r : ℚ) :
    List (Option Individual) → ℕ → List Individual
  | [], _ => []
  | o :: rest, j =>
    let tail := neighborsWithinAux who selfIdx r rest (j + 1)
    match o with
    | none => tail
    | some other =>
      if j ≠ selfIdx ∧ distLe who.position other.position r then other :: tail
      else tail

/-- neighborsWithin entry point. -/
def neighborsWithin (pop : List (Option Individual)) (selfIdx : ℕ)
    (who : Individual) (r : ℚ) : List Individual :=
  if r ≤ 0 then [] else neighborsWithinAux who selfIdx r pop 0

/-- The base threshold R used by computeA: the environment social-distance
threshold, falling back to half the disease transmission distance, then
to 1.0, when non-positive. -/
def thresholdR (env : Environment) (ind : Individual) : ℚ :=
  let R0 := env.socialDistanceThreshold
  let R1 :=
    match ind.disease with
    | some dz =>
      if R0 ≤ 0 ∧ 0 < dz.transmissionDistance then 0.5 * dz.transmissionDistance
      else R0
    | none => R0
  if R1 ≤ 0 then 1 else R1

/-- The vaccination time-based protection computed inside computeA:
full protection for the first 30 days since vaccination, then the linear
waning (d-30)/180 clamped into [0,1] is subtracted from 1. -/
def vaccineProtection (days : ℤ) : ℚ :=
  let d : ℚ := (days : ℚ)
  if d ≤ 30 then 1
  else
    let p0 := (d - 30) / 180
    let p := if p0 < 0 then 0 else if p0 > 1 then 1 else p0
    1 - p

/-- computeA: Healthy -> Susceptible probability. -/
def computeA (env : Environment) (selfIdx : ℕ) (ind : Individual) : ℚ :=
  if ind.healthStatus ≠ HealthStatus.Healthy then 0
  else
    let R := thresholdR env ind
    let compliance := clamp01 ind.socialDistanceCompliance
    let Reff := R * (1 - 0.6 * compliance)
    let neighbors := infectedNeighbors env.population selfIdx ind Reff
    if neighbors.length = 0 ∨ env.hygieneLevel ≥ 0.5 then 0
    else
      let protection := if ind.vaccinated then clamp01 (vaccineProtection ind.daysSinceVacination) else 0
      clamp01 (1 - protection)

/-- computeB: Susceptible -> Infected probability (independent-failure
stacking over infected neighbors within 3·D0). -/
def computeB (F : TransFns) (env : Environment) (selfIdx : ℕ) (ind : Individual) : ℚ :=
  match ind.disease with
  | none => 0
  | some dz =>
    if ind.healthStatus ≠ HealthStatus.Susceptible then 0
    else
      let D0 := if dz.transmissionDistance ≤ 0 then 1 else dz.transmissionDistance
      let baseBeta := clamp01 dz.transmissionRate
      let vaxFactor := if ind.vaccinated then 0.5 else 1 - 0.5 * clamp01 env.vaccinationRate
      let hygieneFactor := 1 - 0.4 * clamp01 env.hygieneLevel
      let complianceFactor := 1 - 0.4 * clamp01 ind.socialDistanceCompliance
      let sqs := infectedNeighbors env.population selfIdx ind (3 * D0)
      let fail := sqs.foldl
        (fun acc sq =>
          let decay := F.expFn (-(F.sqrtFn sq) / D0)
          let pi := clamp01 (baseBeta * decay * vaxFactor * hygieneFactor * complianceFactor)
          acc * (1 - pi)) 1
      clamp01 (1 - fail)

/-- computeC: Infected -> Dead probability. -/
def computeC (env : Environment) (ind : Individual) (infectedTotal : ℤ) : ℚ :=
  match ind.disease with
  | none => 0
  | some dz =>
    if ind.healthStatus ≠ HealthStatus.Infected then 0
    else
      let base := clamp01 dz.mortalityRate
      let ageMult : ℚ := if ind.age < 40 then 0.6 else if ind.age ≤ 60 then 1 else 1.6
      let overloadMult : ℚ :=
        if 0 < env.medicalCapacity ∧ env.medicalCapacity < infectedTotal then
          let overloadFrac := ((infectedTotal - env.medicalCapacity : ℤ) : ℚ) / (env.medicalCapacity : ℚ)
          let overloadFrac := if overloadFrac < 0 then 0 else overloadFrac
          1 + overloadFrac
        else 1
      let careFactor := 1 - 0.6 * clamp01 env.medicalCareLevel
      let vaxFactor : ℚ := if ind.vaccinated then 0.5 else 1
      clamp01 (base * ageMult * overloadMult * careFactor * vaxFactor)

/-- computeD: Infected -> Recovered probability. -/
def computeD (F : TransFns) (env : Environment) (ind : Individual) : ℚ :=
  match ind.disease with
  | none => 0
  | some dz =>
    if ind.healthStatus ≠ HealthStatus.Infected then 0
    else
      let baseRec := clamp01 dz.recoveryRate
      let ageMult : ℚ := if ind.age < 40 then 1.4 else if ind.age ≤ 60 then 1 else 0.7
      let careFactor := 1 + 0.5 * clamp01 env.medicalCareLevel
      let timeFactor : ℚ :=
        if 0 < ind.daysInfected then 1 + F.logFn ((ind.daysInfected : ℚ) + 1) / 10 else 1
      clamp01 (baseRec * ageMult * careFactor * timeFactor)

/-- computeE: Recovered -> Healthy probability. -/
def computeE (F : TransFns) (_env : Environment) (ind : Individual) : ℚ :=
  match ind.disease with
  | none => 0
  | some _ =>
    if ind.healthStatus ≠ HealthStatus.Recovered then 0
    else
      let baseE : ℚ := 0.01 +
        (if 0 < ind.daysSinceRecovery then F.logFn ((ind.daysSinceRecovery : ℚ) + 1) / 50 else 0)
      let vaxFactor : ℚ := if ind.vaccinated then 0.5 else 1
      clamp01 (baseE * vaxFactor)

/-- baselineMoveRadius from the behavioral-adaptation file. -/
def baselineMoveRadius (mp : MovementPattern) : ℚ :=
  match mp.moveType with
  | MoveType.Walk => if 0 < mp.moveRadius then mp.moveRadius else 1
  | MoveType.Train => if 0 < mp.moveRadius then mp.moveRadius else 5
  | MoveType.Flight => if 0 < mp.moveRadius then mp.moveRadius else 200

/-- updateHygieneLevel: per-agent daily hygiene update; consumes one injected
draw (the noise term). -/
def updateHygieneLevel (env : Environment) (selfIdx : ℕ) (ind : Individual)
    (inj : ℕ → ℚ) (k : ℕ) : Individual × ℕ :=
  let current := clamp01 ind.hygieneLevel
  let afterDecay := current * (1 - 0.01)
  let neighbors := neighborsWithin env.population selfIdx ind 2
  let meanNeighbor :=
    if neighbors.length = 0 then clamp01 env.hygieneLevel
    else (neighbors.foldl (fun s n => s + clamp01 n.hygieneLevel) 0) / (neighbors.length : ℚ)
  let combined := afterDecay * (1 - 0.35) + meanNeighbor * 0.35
  let combined :=
    if ind.inHospital then max combined (clamp01 (current + 0.30))
    else if ind.healthStatus = HealthStatus.Infected then max combined (clamp01 (current + 0.20))
    else combined
  let combined :=
    if ind.vaccinated then
      let p0 := (ind.daysSinceVacination : ℚ) / 180
      let p := if p0 < 0 then 0 else if p0 > 1 then 1 else p0
      combined * (1 - 0.12 * p)
    else combined
  let noise := (inj k * 2 - 1) * 0.03
  ({ ind with hygieneLevel := clamp01 (combined + noise) }, k + 1)

/-- updateSocialDistanceCompliance: per-agent daily compliance update;
also rewrites the agent's movement radius and returns the derived movement
probability; consumes one injected draw (the jitter term). -/
def updateSocialDistanceCompliance (env : Environment) (selfIdx : ℕ) (ind : Individual)
    (inj : ℕ → ℚ) (k : ℕ) : ℚ × Individual × ℕ :=
  let current := clamp01 ind.socialDistanceCompliance
  let neighbors := neighborsWithin env.population selfIdx ind 3
  let meanNeighborCompliance :=
    if neighbors.length = 0 then clamp01 (env.socialDistanceThreshold / 10)
    else (neighbors.foldl (fun s n => s + clamp01 n.socialDistanceCompliance) 0) / (neighbors.length : ℚ)
  let policySignal := clamp01 (env.socialDistanceThreshold / 10)
  let newC := current * (1 - 0.4 - 0.4) + meanNeighborCompliance * 0.4 + policySignal * 0.4
  let newC :=
    if ind.inHospital then max newC (clamp01 (current + 0.6))
    else if ind.healthStatus = HealthStatus.Infected then max newC (clamp01 (current + 0.35))
    else newC
  let newC :=
    if ind.vaccinated then
      let p0 := (ind.daysSinceVacination : ℚ) / 180
      let p := if p0 < 0 then 0 else if p0 > 1 then 1 else p0
      newC * (1 - 0.25 * p)
    else newC
  let newC :=
    match ind.movementPattern.moveType with
    | MoveType.Train => newC * 0.9
    | MoveType.Flight => newC * 0.8
    | MoveType.Walk => newC * (1 - 0.02) + 0.02
  let newC := clamp01 (newC + (inj k * 2 - 1) * 0.04)
  let baseRadius := baselineMoveRadius ind.movementPattern
  let effectiveRadius0 := baseRadius * (1 - 0.6 * newC)
  let effectiveRadius := if effectiveRadius0 < 0.01 then 0.01 else effectiveRadius0
  let ind' := { ind with
    socialDistanceCompliance := newC,
    movementPattern := { ind.movementPattern with moveRadius := effectiveRadius } }
  let moveProb := clamp01 (0.15 + (1 - 0.15) * (1 - newC))
  (moveProb, ind', k + 1)

/-- The error message of UpdateIndividualHealthStatus for an invalid
probability set. -/
def invalidProbMsg : String := "invalid probabilities: ensure 0<=a,b,c,d,e<=1 and c+d<=1"

/-- The core stochastic state switch of UpdateIndividualHealthStatus
(one draw is consumed for every status except Dead). -/
def healthSwitch (ind2 : Individual) (a b c d e : ℚ) (inj : ℕ → ℚ) (k2 : ℕ) :
    Individual × ℕ :=
  match ind2.healthStatus with
  | HealthStatus.Healthy =>
    if inj k2 < a then
      ({ ind2 with healthStatus := HealthStatus.Susceptible, daysSinceRecovery := 0 }, k2 + 1)
    else (ind2, k2 + 1)
  | HealthStatus.Susceptible =>
    if inj k2 < b then
      ({ ind2 with healthStatus := HealthStatus.Infected, daysInfected := 0, daysSinceRecovery := 0 }, k2 + 1)
    else ({ ind2 with healthStatus := HealthStatus.Healthy }, k2 + 1)
  | HealthStatus.Infected =>
    let r := inj k2
    if r < c then ({ ind2 with healthStatus := HealthStatus.Dead }, k2 + 1)
    else if r < c + d then
      ({ ind2 with healthStatus := HealthStatus.Recovered, daysSinceRecovery := 0, daysInfected := 0 }, k2 + 1)
    else ({ ind2 with daysInfected := ind2.daysInfected + 1 }, k2 + 1)
  | HealthStatus.Recovered =>
    if inj k2 < e then
      ({ ind2 with healthStatus := HealthStatus.Healthy, daysSinceRecovery := 0 }, k2 + 1)
    else ({ ind2 with daysSinceRecovery := ind2.daysSinceRecovery + 1 }, k2 + 1)
  | HealthStatus.Dead => (ind2, k2)

/-- Post-update bookkeeping of UpdateIndividualHealthStatus: advance the
vaccination timer of a vaccinated agent. -/
def vaccTick (ind : Individual) : Individual :=
  if ind.vaccinated then { ind with daysSinceVacination := ind.daysSinceVacination + 1 }
  else ind

/-- UpdateIndividualHealthStatus: validates the probability set (before any
mutation), runs the behavioral hooks, applies the stochastic state switch,
then increments the vaccination timer.  env carries the current population;
selfIdx is the agent's own slot (pointer identity).  Returns the updated
agent, the advanced injected-stream cursor, and the error, if any. -/
def UpdateIndividualHealthStatus (env : Environment) (selfIdx : ℕ) (ind : Individual)
    (a b c d e : ℚ) (inj : ℕ → ℚ) (k : ℕ) : Individual × ℕ × Option String :=
  if ¬ validProbs a b c d e then (ind, k, some invalidProbMsg)
  else
    let r1 := updateHygieneLevel env selfIdx ind inj k
    let r2 := updateSocialDistanceCompliance env selfIdx r1.1 inj r1.2
    let r3 := healthSwitch r2.2.1 a b c d e inj r2.2.2
    (vaccTick r3.1, r3.2, none)

/-- The per-agent probability record (the probs struct of
UpdatePopulationHealthStatus). -/
structure Probs where
  a : ℚ
  b : ℚ
  c : ℚ
  d : ℚ
  e : ℚ
deriving DecidableEq

/-- The zero-valued probs record (Go zero value). -/
def zeroProbs : Probs := ⟨0, 0, 0, 0, 0⟩

/-- Snapshot-phase body: the probability set computed for the slot at index i
(only the component relevant to the agent's state is non-zero; nil slots get
the zero record). -/
def computeProbs (F : TransFns) (env : Environment) (infectedTotal : ℤ)
    (i : ℕ) (o : Option Individual) : Probs :=
  match o with
  | none => zeroProbs
  | some ind =>
    match ind.healthStatus with
    | HealthStatus.Healthy => { zeroProbs with a := computeA env i ind }
    | HealthStatus.Susceptible => { zeroProbs with b := computeB F env i ind }
    | HealthStatus.Infected =>
      { zeroProbs with c := computeC env ind infectedTotal, d := computeD F env ind }
    | HealthStatus.Recovered => { zeroProbs with e := computeE F env ind }
    | HealthStatus.Dead => zeroProbs

/-- Builds the list [f s, f (s+1), ..., f (s+len-1)]; models the Go loop
filling the ps slice by index. -/
def tableFrom {α : Type} (f : ℕ → α) (s : ℕ) : ℕ → List α
  | 0 => []
  | len + 1 => f s :: tableFrom f (s + 1) len

/-- countInfected: the infected count over non-nil slots
(the infectedTotal loop of UpdatePopulationHealthStatus). -/
def countInfected (pop : List (Option Individual)) : ℕ :=
  pop.countP fun o =>
    match o with
    | some p => p.healthStatus = HealthStatus.Infected
    | none => false

/-- countVaccinated: the currentVaccinated loop of UpdateVaccination. -/
def countVaccinated (pop : List (Option Individual)) : ℕ :=
  pop.countP fun o =>
    match o with
    | some p => p.vaccinated
    | none => false

/-- The acceptance probability of UpdateVaccination for one unvaccinated
agent (base 0.55 plus age, compliance, hygiene and health modifiers,
clamped). -/
def acceptanceProb (ind : Individual) : ℚ :=
  let baseAcceptance : ℚ := 0.55
  let ageMod : ℚ := if 60 ≤ ind.age then 0.20 else if 40 ≤ ind.age then 0.10 else 0
  let complMod := 0.15 * clamp01 ind.socialDistanceCompliance
  let hygieneMod := 0.08 * clamp01 ind.hygieneLevel
  let healthMod : ℚ :=
    if ind.inHospital then 0.30
    else if ind.healthStatus = HealthStatus.Infected then 0.10 else 0
  clamp01 (baseAcceptance + ageMod + complMod + hygieneMod + healthMod)

/-- The visiting loop of UpdateVaccination: walks the (randomly permuted)
index list, skips nil and already-vaccinated slots, draws acceptance from
the injected stream, and stops once the capped slots are exhausted.
Returns the population, the advanced injected cursor, and the number of
newly vaccinated agents. -/
def vaccinationLoop (inj : ℕ → ℚ) :
    List ℕ → List (Option Individual) → ℤ → ℕ → List (Option Individual) × ℕ × ℤ
  | [], pop, _, k => (pop, k, 0)
  | idx :: rest, pop, slots, k =>
    if slots ≤ 0 then (pop, k, 0)
    else
      match pop.getD idx none with
      | none => vaccinationLoop inj rest pop slots k
      | some ind =>
        if ind.vaccinated then vaccinationLoop inj rest pop slots k
        else
          if inj k < acceptanceProb ind then
            let pop' := pop.set idx (some { ind with vaccinated := true, daysSinceVacination := 0 })
            let r := vaccinationLoop inj rest pop' (slots - 1) (k + 1)
            (r.1, r.2.1, r.2.2 + 1)
          else vaccinationLoop inj rest pop slots (k + 1)

/-- Result of UpdateVaccination. -/
structure VaccOut where
  pop : List (Option Individual)
  pc : ℕ
  k : ℕ
  newly : ℤ
deriving DecidableEq

/-- UpdateVaccination: capacity-constrained daily rollout.  The visiting
order comes from the package-global rand.Perm (G.perm at cursor pc);
acceptance draws come from the injected stream. -/
def UpdateVaccination (env : Environment) (G : GlobalRand) (pc : ℕ)
    (inj : ℕ → ℚ) (k : ℕ) : VaccOut :=
  let n := env.population.length
  let currentVaccinated : ℤ := (countVaccinated env.population : ℤ)
  let desiredTotal : ℤ := goRound (clamp01 env.vaccinationRate * (n : ℚ))
  let available := desiredTotal - currentVaccinated
  if available ≤ 0 then ⟨env.population, pc, k, 0⟩
  else
    let maxDaily : ℤ := max 1 (goRound (0.02 * (n : ℚ)))
    let slots := min available maxDaily
    if slots ≤ 0 then ⟨env.population, pc + 1, k, 0⟩
    else
      let indices := G.perm pc n
      let r := vaccinationLoop inj indices env.population slots k
      ⟨r.1, pc + 1, r.2.1, r.2.2⟩

/-- Apply phase of UpdatePopulationHealthStatus: for each index in order,
update the (non-nil) agent with its precomputed probability set; on the
first error stop and surface it, leaving the remaining agents untouched.
The environment handed to the per-agent update carries the current
(partially updated) population, as in Go, where the hooks read neighbors
through the live slice. -/
def applyPhase (env : Environment) (ps : List Probs) (inj : ℕ → ℚ) :
    List ℕ → List (Option Individual) → ℕ → List (Option Individual) × ℕ × Option String
  | [], pop, k => (pop, k, none)
  | i :: rest, pop, k =>
    match pop.getD i none with
    | none => applyPhase env ps inj rest pop k
    | some ind =>
      let p := ps.getD i zeroProbs
      let r := UpdateIndividualHealthStatus { env with population := pop } i ind
        p.a p.b p.c p.d p.e inj k
      match r.2.2 with
      | some msg => (pop, r.2.1, some msg)
      | none => applyPhase env ps inj rest (pop.set i (some r.1)) r.2.1

/-- Result of UpdatePopulationHealthStatus. -/
structure PopOut where
  env : Environment
  pc : ℕ
  k : ℕ
  err : Option String
deriving DecidableEq

/-- UpdatePopulationHealthStatus: guard, vaccination rollout, infected
count, snapshot phase (probabilities for every slot computed from the
post-rollout pre-apply state), then the apply phase. -/
def UpdatePopulationHealthStatus (F : TransFns) (env : Environment) (G : GlobalRand)
    (pc : ℕ) (inj : ℕ → ℚ) (k : ℕ) : PopOut :=
  if env.population.length = 0 then ⟨env, pc, k, some "empty environment or population"⟩
  else
    let v := UpdateVaccination env G pc inj k
    let env1 := { env with population := v.pop }
    let infectedTotal : ℤ := (countInfected env1.population : ℤ)
    let n := env1.population.length
    let ps := tableFrom (fun i => computeProbs F env1 infectedTotal i (env1.population.getD i none)) 0 n
    let r := applyPhase env1 ps inj (List.range n) env1.population v.k
    ⟨{ env1 with population := r.1 }, v.pc, r.2.1, r.2.2⟩

/-- NewMovementPattern: baseline radius by movement type as a fraction of
the area side length. -/
def NewMovementPattern (mt : MoveType) (areaSize : ℚ) : MovementPattern :=
  match mt with
  | MoveType.Walk => ⟨MoveType.Walk, areaSize * 0.001⟩
  | MoveType.Train => ⟨MoveType.Train, areaSize * 0.1⟩
  | MoveType.Flight => ⟨MoveType.Flight, areaSize⟩

/-- The toroidal wraparound of updateMove on one coordinate. -/
def wrapCoord (areaSize v : ℚ) : ℚ :=
  if v < 0 then areaSize + v else if v > areaSize then v - areaSize else v

/-- UpdateMovementPattern: resample tomorrow's movement pattern from the
package-global stream (1% Flight, next 4% Train, else Walk). -/
def UpdateMovementPattern (areaSize : ℚ) (ind : Individual) (G : GlobalRand)
    (m : ℕ) : Individual × ℕ :=
  let val := G.flt m
  let mp : MovementPattern :=
    if val ≤ 0.01 then ⟨MoveType.Flight, areaSize⟩
    else if val ≤ 0.05 then ⟨MoveType.Train, areaSize * 0.1⟩
    else ⟨MoveType.Walk, areaSize * 0.001⟩
  ({ ind with movementPattern := mp }, m + 1)

/-- updateMove: dead agents do not move; infected agents are forced onto
Walk with the Walk radius; a non-positive radius is re-derived from the
movement type; displacement is sqrt(U)·radius in a uniform direction
(both draws from the package-global stream), wrapped toroidally; finally
the next-day pattern is resampled. -/
def updateMove (F : TransFns) (areaSize : ℚ) (ind : Individual) (G : GlobalRand)
    (m : ℕ) : Individual × ℕ :=
  if ind.healthStatus = HealthStatus.Dead then (ind, m)
  else
    let ind1 :=
      if ind.healthStatus = HealthStatus.Infected then
        { ind with movementPattern := ⟨MoveType.Walk, areaSize * 0.001⟩ }
      else ind
    let fixed :=
      if ind1.movementPattern.moveRadius ≤ 0 then
        NewMovementPattern ind1.movementPattern.moveType areaSize
      else ind1.movementPattern
    let ind2 := { ind1 with movementPattern := fixed }
    let moveRadius := fixed.moveRadius
    let stepLen := F.sqrtFn (G.flt m) * moveRadius
    let dx := stepLen * F.cos2pi (G.flt (m + 1))
    let dy := stepLen * F.sin2pi (G.flt (m + 1))
    let newX := wrapCoord areaSize (ind2.position.x + dx)
    let newY := wrapCoord areaSize (ind2.position.y + dy)
    let ind3 := { ind2 with position := ⟨newX, newY⟩ }
    UpdateMovementPattern areaSize ind3 G (m + 2)

/-- The daily movement loop of the driver: every slot that is non-nil and
not Dead moves. -/
def movementPhase (F : TransFns) (areaSize : ℚ) (G : GlobalRand) :
    List (Option Individual) → ℕ → List (Option Individual) × ℕ
  | [], m => ([], m)
  | none :: rest, m =>
    let r := movementPhase F areaSize G rest m
    (none :: r.1, r.2)
  | some ind :: rest, m =>
    if ind.healthStatus = HealthStatus.Dead then
      let r := movementPhase F areaSize G rest m
      (some ind :: r.1, r.2)
    else
      let mv := updateMove F areaSize ind G m
      let r := movementPhase F areaSize G rest mv.2
      (some mv.1 :: r.1, r.2)

/-- Result of ComputePopulationStats: infected fraction, infected count,
vaccinated count, mean personal hygiene, mean transmission distance,
population size (non-nil slots). -/
structure PopStats where
  infectedFraction : ℚ
  totalInfected : ℤ
  totalVaccinated : ℤ
  popHygieneMean : ℚ
  avgTransDist : ℚ
  n : ℤ
deriving DecidableEq

/-- Accumulator pass of ComputePopulationStats. -/
def statsFold (pop : List (Option Individual)) : ℚ × ℚ × ℤ × ℤ × ℤ × ℤ :=
  pop.foldl
    (fun acc o =>
      match o with
      | none => acc
      | some ind =>
        let sumHyg := acc.1 + clamp01 ind.hygieneLevel
        let hasTd : Bool := match ind.disease with
          | some dz => decide (0 < dz.transmissionDistance)
          | none => false
        let sumTrans := acc.2.1 + (match ind.disease with
          | some dz => if 0 < dz.transmissionDistance then dz.transmissionDistance else 0
          | none => 0)
        let transCount := acc.2.2.1 + (if hasTd then 1 else 0)
        let total := acc.2.2.2.1 + 1
        let infected := acc.2.2.2.2.1 + (if ind.healthStatus = HealthStatus.Infected then 1 else 0)
        let vaccinated := acc.2.2.2.2.2 + (if ind.vaccinated then 1 else 0)
        (sumHyg, sumTrans, transCount, total, infected, vaccinated))
    (0, 0, 0, 0, 0, 0)

/-- ComputePopulationStats from updateEnv.go. -/
def ComputePopulationStats (env : Environment) : PopStats :=
  if env.population.length = 0 then ⟨0, 0, 0, 0, 1, 0⟩
  else
    let acc := statsFold env.population
    let sumHyg := acc.1
    let sumTrans := acc.2.1
    let transCount := acc.2.2.1
    let total := acc.2.2.2.1
    let infected := acc.2.2.2.2.1
    let vaccinated := acc.2.2.2.2.2
    let popHyg := if 0 < total then sumHyg / (total : ℚ) else 0
    let avgTD := if 0 < transCount then sumTrans / (transCount : ℚ) else 1
    let infFrac := if 0 < total then (infected : ℚ) / (total : ℚ) else 0
    ⟨infFrac, infected, vaccinated, popHyg, avgTD, total⟩

/-- updateSocialDistanceThreshold: prevalence-bucketed factor, overload
tightening, exponential smoothing, and clamping into
[max(0.1, 0.1·avgTransDist), 4·avgTransDist].  Returns the updated
environment and the tightened flag. -/
def updateSocialDistanceThreshold (env : Environment) (infectedFraction avgTransDist : ℚ) :
    Environment × Bool :=
  let avgTD := if avgTransDist ≤ 0 then 1 else avgTransDist
  let factor : ℚ :=
    if infectedFraction < 0.01 then 2
    else if infectedFraction < 0.05 then 1.5
    else if infectedFraction < 0.10 then 1
    else if infectedFraction < 0.20 then 0.7
    else 0.4
  let factor :=
    if 0 < env.medicalCapacity ∧ 0 < infectedFraction then
      let approxInfected := goRound (infectedFraction * (env.population.length : ℚ))
      if env.medicalCapacity < approxInfected then
        let overloadFrac := ((approxInfected - env.medicalCapacity : ℤ) : ℚ) / (env.medicalCapacity : ℚ)
        factor * (1 - clamp01 (overloadFrac * 0.25))
      else factor
    else factor
  let candidate := avgTD * factor
  let prev := env.socialDistanceThreshold
  let smoothed := if prev ≤ 0 then candidate else prev * (1 - 0.25) + candidate * 0.25
  let minThresh := max (0.1 * avgTD) 0.1
  let maxThresh := 4 * avgTD
  let final := min (max smoothed minThresh) maxThresh
  let tightened := decide (0 < prev ∧ candidate < prev)
  ({ env with socialDistanceThreshold := final }, tightened)

/-- The policy-strictness term of updateEnvHygieneLevel: the threshold
divided by four times the reference value (the threshold itself when
positive, else 1), subtracted from 1 and clamped. -/
def policyStrictness (threshold : ℚ) : ℚ :=
  let ref := if 0 < threshold then threshold else 1
  clamp01 (1 - threshold / (4 * ref))

/-- The policy-driven boost term of updateEnvHygieneLevel. -/
def policyBoost (threshold : ℚ) : ℚ := 0.2 * policyStrictness threshold

/-- updateEnvHygieneLevel: blend with the population mean, add the campaign
boost and uniform noise (one injected draw), clamp. -/
def updateEnvHygieneLevel (env : Environment) (popHygieneMean infectedFraction : ℚ)
    (inj : ℕ → ℚ) (k : ℕ) : Environment × ℕ :=
  let campaignBase := if 0.4 < infectedFraction then clamp01 (infectedFraction * 1.5) else 0
  let campaignBoost := clamp01 (campaignBase * 0.6 + policyBoost env.socialDistanceThreshold * 0.4)
  let publicNoise := (inj k * 2 - 1) * 0.02
  let newVal := env.hygieneLevel * (1 - 0.35) + popHygieneMean * 0.35 + campaignBoost + publicNoise
  ({ env with hygieneLevel := clamp01 newVal }, k + 1)

/-- updateEnvVaccinationRate: smooth the environment estimate toward actual
coverage; errors on non-positive population size. -/
def updateEnvVaccinationRate (env : Environment) (totalVaccinated populationSize : ℤ) :
    Environment × Option String :=
  if populationSize ≤ 0 then (env, some "invalid population size")
  else
    let actualRate := (totalVaccinated : ℚ) / (populationSize : ℚ)
    ({ env with vaccinationRate := clamp01 (env.vaccinationRate * (1 - 0.3) + actualRate * 0.3) },
      none)

/-- Result of UpdateEnvironment. -/
structure EnvOut where
  env : Environment
  k : ℕ
  infectedFraction : ℚ
  tightened : Bool
  err : Option String
deriving DecidableEq

/-- UpdateEnvironment from updateEnv.go: statistics, threshold update,
environment hygiene update, vaccination-rate smoothing. -/
def UpdateEnvironment (env : Environment) (inj : ℕ → ℚ) (k : ℕ) : EnvOut :=
  if env.population.length = 0 then ⟨env, k, 0, false, some "empty environment or population"⟩
  else
    let st := ComputePopulationStats env
    let t := updateSocialDistanceThreshold env st.infectedFraction st.avgTransDist
    let h := updateEnvHygieneLevel t.1 st.popHygieneMean st.infectedFraction inj k
    let v := updateEnvVaccinationRate h.1 st.totalVaccinated st.n
    ⟨v.1, h.2, st.infectedFraction, t.2, v.2⟩

/-- Result of advancing one simulated day. -/
structure DayResult where
  env : Environment
  pc : ℕ
  k : ℕ
  m : ℕ
  infectedFraction : ℚ
  tightened : Bool
  err : Option String
deriving DecidableEq

/-- One simulated day of the driver loop in main.go: population health
update (vaccination rollout + snapshot + apply), environment feedback,
then movement of every live agent; stops at the first surfaced error. -/
def advanceOneDay (F : TransFns) (env : Environment) (G : GlobalRand) (pc : ℕ)
    (inj : ℕ → ℚ) (k m : ℕ) : DayResult :=
  let p := UpdatePopulationHealthStatus F env G pc inj k
  match p.err with
  | some msg => ⟨p.env, p.pc, p.k, m, 0, false, some msg⟩
  | none =>
    let e := UpdateEnvironment p.env inj p.k
    match e.err with
    | some msg => ⟨e.env, p.pc, e.k, m, e.infectedFraction, e.tightened, some msg⟩
    | none =>
      let mv := movementPhase F e.env.areaSize G e.env.population m
      ⟨{ e.env with population := mv.1 }, p.pc, e.k, mv.2, e.infectedFraction, e.tightened, none⟩

/-- Iterated days of the driver loop; the driver stops simulating at the
first surfaced error. -/
def simulateDays (F : TransFns) (G : GlobalRand) (inj : ℕ → ℚ) :
    ℕ → Environment → ℕ → ℕ → ℕ → DayResult
  | 0, env, pc, k, m => ⟨env, pc, k, m, 0, false, none⟩
  | n + 1, env, pc, k, m =>
    let r := advanceOneDay F env G pc inj k m
    match r.err with
    | some _ => r
    | none => simulateDays F G inj n r.env r.pc r.k r.m

/-- Apply phase parameterized by a probability function of the agent index;
identical control flow to applyPhase but the probability set for index i is
read off a function instead of the precomputed table. -/
def applyPhaseSnapshot (env : Environment) (probOf : ℕ → Probs) (inj : ℕ → ℚ) :
    List ℕ → List (Option Individual) → ℕ → List (Option Individual) × ℕ × Option String
  | [], pop, k => (pop, k, none)
  | i :: rest, pop, k =>
    match pop.getD i none with
    | none => applyPhaseSnapshot env probOf inj rest pop k
    | some ind =>
      let p := probOf i
      let r := UpdateIndividualHealthStatus { env with population := pop } i ind
        p.a p.b p.c p.d p.e inj k
      match r.2.2 with
      | some msg => (pop, r.2.1, some msg)
      | none => applyPhaseSnapshot env probOf inj rest (pop.set i (some r.1)) r.2.1

/-- Modelled from the spec (Snapshot phase of the Health-State Machine):
after the day's vaccination rollout, every agent's single relevant
probability set is a pure function of its index over the frozen pre-apply
state, and only then are the status mutations applied in index order. -/
def specSnapshotThenApply (F : TransFns) (env : Environment) (G : GlobalRand)
    (pc : ℕ) (inj : ℕ → ℚ) (k : ℕ) : PopOut :=
  if env.population.length = 0 then ⟨env, pc, k, some "empty environment or population"⟩
  else
    let v := UpdateVaccination env G pc inj k
    let env1 := { env with population := v.pop }
    let probOf : ℕ → Probs := fun i =>
      computeProbs F env1 (countInfected env1.population : ℤ) i (env1.population.getD i none)
    let r := applyPhaseSnapshot env1 probOf inj (List.range env1.population.length)
      env1.population v.k
    ⟨{ env1 with population := r.1 }, v.pc, r.2.1, r.2.2⟩

/-- Modelled from the spec (transition-probability calculator, case a):
vaccine protection is full for the first 30 days since vaccination and then
decays linearly to 0 over the next 180 days. -/
def specProtection (days : ℤ) : ℚ :=
  if (days : ℚ) ≤ 30 then 1 else max 0 (1 - ((days : ℚ) - 30) / 180)

/-- The health status stored in population slot j (none for nil or
out-of-range slots). -/
def statusAt (pop : List (Option Individual)) (j : ℕ) : Option HealthStatus :=
  (pop.getD j none).map fun ind => ind.healthStatus

/-- No slot of the population holds an Infected agent. -/
def noInfected (pop : List (Option Individual)) : Prop :=
  ∀ o ∈ pop, ∀ ind : Individual, o = some ind → ind.healthStatus ≠ HealthStatus.Infected

/-! Concrete instances used by witnesses and counterexamples. -/

/-- A concrete transcendental-function instance, consistent with the bounds
the theorems assume (sqrt of 1/4 is 1/2, cosine of angle 0 is 1, sine 0). -/
def F0 : TransFns :=
  ⟨fun q => if q = 1/4 then 1/2 else 0, fun _ => 0, fun _ => 0, fun _ => 1, fun _ => 0⟩

/-- A concrete global source whose Float64 draws are all 0 and whose
permutations are the identity. -/
def G0 : GlobalRand := ⟨fun _ n => List.range n, fun _ => 0⟩

/-- A concrete global source whose Float64 draws are all 1/4 and whose
permutations are the identity. -/
def G1 : GlobalRand := ⟨fun _ n => List.range n, fun _ => 1/4⟩

/-- A concrete injected stream: every draw is 1/2. -/
def injHalf : ℕ → ℚ := fun _ => 1/2

/-- A concrete healthy agent. -/
def indW : Individual :=
  ⟨"X", 30, HealthStatus.Healthy, none, 0, 0, 0, false, 1/2, 1/2,
    ⟨MoveType.Walk, 1⟩, ⟨1, 1⟩, false⟩

/-- A concrete one-agent environment (vaccination target 0). -/
def envW : Environment := ⟨[some indW], 10, 2, 1/10, 1, 0, 7/10, 1⟩

/-- A concrete dead agent with full hygiene. -/
def indDead : Individual :=
  { indW with healthStatus := HealthStatus.Dead, hygieneLevel := 1 }

/-- A concrete one-agent environment holding only the dead agent. -/
def envDead : Environment := { envW with population := [some indDead] }

/-- A concrete agent positioned so that one admissible draw moves it exactly
onto the area boundary (area side 4, radius 4, start at (2,2)). -/
def indC8 : Individual :=
  { indW with position := ⟨2, 2⟩, movementPattern := ⟨MoveType.Walk, 4⟩ }

/-- A concrete infected agent (used to exercise the invalid-probability
error path, which only Infected agents can reach). -/
def indInf : Individual :=
  { indW with healthStatus := HealthStatus.Infected }

/-- A concrete environment holding the infected agent. -/
def envInf : Environment := { envW with population := [some indInf] }

/-! ## Basic lemmas -/

theorem clamp01_nonneg (x : ℚ) : 0 ≤ clamp01 x := by
  unfold clamp01; split_ifs <;> linarith

theorem clamp01_le_one (x : ℚ) : clamp01 x ≤ 1 := by
  unfold clamp01; split_ifs <;> linarith

theorem clamp01_eq_self {x : ℚ} (h0 : 0 ≤ x) (h1 : x ≤ 1) : clamp01 x = x := by
  unfold clamp01; split_ifs <;> linarith

theorem clamp01_eq_one {x : ℚ} (h : 1 ≤ x) : clamp01 x = 1 := by
  unfold clamp01; split_ifs <;> linarith

theorem getD_set_ne {α : Type} (l : List α) (x d : α) :
    ∀ i j : ℕ, i ≠ j → (l.set i x).getD j d = l.getD j d := by
  induction l with
  | nil => intro i j _; rfl
  | cons hd tl ih =>
    intro i j hij
    cases i with
    | zero =>
      cases j with
      | zero => exact absurd rfl hij
      | succ j => simp [List.set]
    | succ i =>
      cases j with
      | zero => simp [List.set]
      | succ j =>
        simp only [List.set, List.getD_cons_succ]
        exact ih i j (by omega)

theorem getD_set_self {α : Type} (l : List α) (x d : α) :
    ∀ i : ℕ, i < l.length → (l.set i x).getD i d = x := by
  induction l with
  | nil => intro i h; simp at h
  | cons hd tl ih =>
    intro i h
    cases i with
    | zero => simp [List.set]
    | succ i =>
      simp only [List.set, List.getD_cons_succ]
      exact ih i (by simpa using h)

theorem getD_mem_or {α : Type} (l : List α) (d : α) :
    ∀ i : ℕ, l.getD i d = d ∨ l.getD i d ∈ l := by
  induction l with
  | nil => intro i; left; cases i <;> rfl
  | cons hd tl ih =>
    intro i
    cases i with
    | zero => right; simp
    | succ i =>
      rcases ih i with h | h
      · left; simpa using h
      · right; simp only [List.getD_cons_succ]; exact List.mem_cons_of_mem _ h

/-! ## Projection lemmas for the per-agent update -/

theorem uhl_healthStatus (env : Environment) (i : ℕ) (ind : Individual)
    (inj : ℕ → ℚ) (k : ℕ) :
    (updateHygieneLevel env i ind inj k).1.healthStatus = ind.healthStatus := rfl

theorem uhl_cursor (env : Environment) (i : ℕ) (ind : Individual)
    (inj : ℕ → ℚ) (k : ℕ) :
    (updateHygieneLevel env i ind inj k).2 = k + 1 := rfl

theorem usdc_healthStatus (env : Environment) (i : ℕ) (ind : Individual)
    (inj : ℕ → ℚ) (k : ℕ) :
    (updateSocialDistanceCompliance env i ind inj k).2.1.healthStatus = ind.healthStatus := rfl

theorem usdc_cursor (env : Environment) (i : ℕ) (ind : Individual)
    (inj : ℕ → ℚ) (k : ℕ) :
    (updateSocialDistanceCompliance env i ind inj k).2.2 = k + 1 := rfl

theorem vaccTick_healthStatus (ind : Individual) :
    (vaccTick ind).healthStatus = ind.healthStatus := by
  unfold vaccTick; split <;> rfl

theorem healthSwitch_dead (ind : Individual) (a b c d e : ℚ) (inj : ℕ → ℚ) (k : ℕ)
    (h : ind.healthStatus = HealthStatus.Dead) :
    healthSwitch ind a b c d e inj k = (ind, k) := by
  unfold healthSwitch; rw [h]

/-! ## C10 helper lemmas -/

theorem policyStrictness_pos {t : ℚ} (ht : 0 < t) : policyStrictness t = 0.75 := by
  have ht' : t ≠ 0 := ne_of_gt ht
  simp only [policyStrictness, if_pos ht]
  have hdiv : t / (4 * t) = 1 / 4 := by
    rw [div_eq_iff (by positivity)]; ring
  rw [hdiv]
  unfold clamp01
  norm_num

theorem policyStrictness_nonpos {t : ℚ} (ht : t ≤ 0) : policyStrictness t = 1 := by
  simp only [policyStrictness, if_neg (not_lt.mpr ht)]
  apply clamp01_eq_one
  have h40 : t / (4 * 1) = t / 4 := by norm_num
  rw [h40]
  linarith

/-- C10: in updateEnvHygieneLevel the derived policy-strictness term equals
the constant 0.75 for every positive social-distance threshold (and 1 for a
non-positive one), so the policy-driven boost contribution is
0.2 times 0.75 = 0.15 independent of the actual threshold value; in
particular the resulting environment hygiene level does not depend on which
positive threshold is in force. -/
theorem policyStrictness_constant :
    (∀ t : ℚ, 0 < t → policyStrictness t = 0.75 ∧ policyBoost t = 0.15)
  ∧ (∀ t : ℚ, t ≤ 0 → policyStrictness t = 1)
  ∧ (∀ (env : Environment) (p f : ℚ) (inj : ℕ → ℚ) (k : ℕ) (t1 t2 : ℚ), 0 < t1 → 0 < t2 →
      (updateEnvHygieneLevel { env with socialDistanceThreshold := t1 } p f inj k).1.hygieneLevel =
      (updateEnvHygieneLevel { env with socialDistanceThreshold := t2 } p f inj k).1.hygieneLevel) := by
  refine ⟨fun t ht => ⟨policyStrictness_pos ht, ?_⟩, fun t ht => policyStrictness_nonpos ht, ?_⟩
  · rw [policyBoost, policyStrictness_pos ht]; norm_num
  · intro env p f inj k t1 t2 h1 h2
    simp only [updateEnvHygieneLevel, policyBoost, policyStrictness_pos h1,
      policyStrictness_pos h2]

/-- Witness for C10 at the concrete threshold 2. -/
theorem policyStrictness_constant_witness :
    0 < (2 : ℚ) ∧ policyStrictness 2 = 0.75 :=
  ⟨by norm_num, (policyStrictness_constant.1 2 (by norm_num)).1⟩

/-! ## C4 helper lemmas -/

theorem specProtection_nonneg (d : ℤ) : 0 ≤ specProtection d := by
  unfold specProtection; split_ifs with h
  · norm_num
  · exact le_max_left _ _

theorem specProtection_le_one (d : ℤ) : specProtection d ≤ 1 := by
  unfold specProtection; split_ifs with h
  · norm_num
  · push_neg at h
    have hnn : 0 ≤ ((d : ℚ) - 30) / 180 := by
      apply div_nonneg <;> linarith
    rcases max_cases (0 : ℚ) (1 - ((d : ℚ) - 30) / 180) with ⟨he, _⟩ | ⟨he, _⟩ <;> rw [he] <;>
      linarith

theorem clamp01_vaccineProtection (d : ℤ) :
    clamp01 (vaccineProtection d) = specProtection d := by
  simp only [vaccineProtection, specProtection]
  split_ifs with h h1 h2
  · exact clamp01_eq_one le_rfl
  · push_neg at h
    have hp0pos : 0 < ((d : ℚ) - 30) / 180 := by
      apply div_pos <;> linarith
    linarith
  · push_neg at h h1
    rw [clamp01_eq_self (by norm_num) (by norm_num)]
    rw [max_eq_left (by linarith)]
    norm_num
  · push_neg at h h1 h2
    rw [clamp01_eq_self (by linarith) (by linarith)]
    rw [max_eq_right (by linarith)]

/-- C4: for every Healthy agent, computeA returns 0 when there is no
infected neighbor within the effective radius
Reff = R·(1 − 0.6·compliance) or when environment hygiene is at least 0.5;
otherwise it returns 1 − protection, with protection full for the first 30
days since vaccination and decaying linearly to 0 over the next 180 days,
and exactly 1 for an unvaccinated agent. -/
theorem computeA_characterization :
    ∀ (env : Environment) (i : ℕ) (ind : Individual),
      ind.healthStatus = HealthStatus.Healthy →
      0 ≤ ind.socialDistanceCompliance → ind.socialDistanceCompliance ≤ 1 →
      ((infectedNeighbors env.population i ind
            (thresholdR env ind * (1 - 0.6 * ind.socialDistanceCompliance)) = [] ∨
          env.hygieneLevel ≥ 0.5) → computeA env i ind = 0)
      ∧ (infectedNeighbors env.population i ind
            (thresholdR env ind * (1 - 0.6 * ind.socialDistanceCompliance)) ≠ [] →
          env.hygieneLevel < 0.5 →
          computeA env i ind = 1 -
            (if ind.vaccinated then specProtection ind.daysSinceVacination else 0)
          ∧ (ind.vaccinated = false → computeA env i ind = 1)) := by
  intro env i ind hH hc0 hc1
  have hcl : clamp01 ind.socialDistanceCompliance = ind.socialDistanceCompliance :=
    clamp01_eq_self hc0 hc1
  have hne' : ¬ (ind.healthStatus ≠ HealthStatus.Healthy) := by simp [hH]
  have hbody : computeA env i ind =
      (if (infectedNeighbors env.population i ind
            (thresholdR env ind * (1 - 0.6 * ind.socialDistanceCompliance))).length = 0 ∨
          env.hygieneLevel ≥ 0.5 then 0
        else clamp01 (1 - if ind.vaccinated
          then clamp01 (vaccineProtection ind.daysSinceVacination) else 0)) := by
    simp only [computeA, hcl, if_neg hne']
  constructor
  · intro hzero
    rw [hbody, if_pos]
    rcases hzero with hnil | hhyg
    · exact Or.inl (by simp [hnil])
    · exact Or.inr hhyg
  · intro hne hhyg
    have hcond : ¬ ((infectedNeighbors env.population i ind
          (thresholdR env ind * (1 - 0.6 * ind.socialDistanceCompliance))).length = 0 ∨
        env.hygieneLevel ≥ 0.5) := by
      push_neg
      exact ⟨fun hlen => hne (List.length_eq_zero.mp hlen), not_le.mp (by exact not_le.mpr hhyg)⟩
    rw [hbody, if_neg hcond]
    constructor
    · by_cases hv : ind.vaccinated
      · rw [if_pos hv, if_pos hv, clamp01_vaccineProtection]
        exact clamp01_eq_self
          (by linarith [specProtection_le_one ind.daysSinceVacination])
          (by linarith [specProtection_nonneg ind.daysSinceVacination])
      · rw [if_neg hv, if_neg hv]
        rw [clamp01_eq_self (by norm_num) (by norm_num)]
    · intro hv
      rw [hv]
      simp only [Bool.false_eq_true, if_false]
      rw [clamp01_eq_self (by norm_num) (by norm_num)]
      norm_num

/-- Witness for C4: the concrete healthy agent of envW has no infected
neighbor, so its computeA is 0. -/
theorem computeA_characterization_witness :
    indW.healthStatus = HealthStatus.Healthy ∧ 0 ≤ indW.socialDistanceCompliance ∧
      indW.socialDistanceCompliance ≤ 1 ∧ computeA envW 0 indW = 0 :=
  ⟨rfl, by norm_num [indW], by norm_num [indW],
    (computeA_characterization envW 0 indW rfl (by norm_num [indW]) (by norm_num [indW])).1
      (Or.inl (by simp [infectedNeighbors, infectedNeighborSq, envW]))⟩

/-! ## Per-agent update: error behavior and status preservation -/

theorem UIHS_invalid_eq (env : Environment) (i : ℕ) (ind : Individual)
    (a b c d e : ℚ) (inj : ℕ → ℚ) (k : ℕ) (hv : ¬ validProbs a b c d e) :
    UpdateIndividualHealthStatus env i ind a b c d e inj k = (ind, k, some invalidProbMsg) := by
  simp [UpdateIndividualHealthStatus, hv]

theorem UIHS_valid_eq (env : Environment) (i : ℕ) (ind : Individual)
    (a b c d e : ℚ) (inj : ℕ → ℚ) (k : ℕ) (hv : validProbs a b c d e) :
    UpdateIndividualHealthStatus env i ind a b c d e inj k =
      (vaccTick (healthSwitch (updateSocialDistanceCompliance env i
          (updateHygieneLevel env i ind inj k).1 inj (updateHygieneLevel env i ind inj k).2).2.1
          a b c d e inj
          (updateSocialDistanceCompliance env i (updateHygieneLevel env i ind inj k).1 inj
            (updateHygieneLevel env i ind inj k).2).2.2).1,
        (healthSwitch (updateSocialDistanceCompliance env i
          (updateHygieneLevel env i ind inj k).1 inj (updateHygieneLevel env i ind inj k).2).2.1
          a b c d e inj
          (updateSocialDistanceCompliance env i (updateHygieneLevel env i ind inj k).1 inj
            (updateHygieneLevel env i ind inj k).2).2.2).2, none) := by
  simp [UpdateIndividualHealthStatus, hv]

theorem UIHS_err_iff (env : Environment) (i : ℕ) (ind : Individual)
    (a b c d e : ℚ) (inj : ℕ → ℚ) (k : ℕ) :
    (UpdateIndividualHealthStatus env i ind a b c d e inj k).2.2 ≠ none ↔
      ¬ validProbs a b c d e := by
  by_cases hv : validProbs a b c d e
  · rw [UIHS_valid_eq env i ind a b c d e inj k hv]
    simp [hv]
  · rw [UIHS_invalid_eq env i ind a b c d e inj k hv]
    simp [hv]

theorem UIHS_healthStatus_dead (env : Environment) (i : ℕ) (ind : Individual)
    (a b c d e : ℚ) (inj : ℕ → ℚ) (k : ℕ) (h : ind.healthStatus = HealthStatus.Dead) :
    (UpdateIndividualHealthStatus env i ind a b c d e inj k).1.healthStatus =
      HealthStatus.Dead := by
  by_cases hv : validProbs a b c d e
  · rw [UIHS_valid_eq env i ind a b c d e inj k hv]
    have hd : (updateSocialDistanceCompliance env i (updateHygieneLevel env i ind inj k).1 inj
        (updateHygieneLevel env i ind inj k).2).2.1.healthStatus = HealthStatus.Dead := by
      rw [usdc_healthStatus, uhl_healthStatus]; exact h
    rw [healthSwitch_dead _ a b c d e inj _ hd]
    rw [vaccTick_healthStatus]
    exact hd
  · rw [UIHS_invalid_eq env i ind a b c d e inj k hv]
    exact h

/-- C3: UpdateIndividualHealthStatus returns an error exactly when the
probability set is invalid (some of a..e outside [0,1] or c+d above 1); in
that case the agent and the stream cursor are untouched (the error precedes
every mutation); and when the population apply loop reaches such an agent
it stops at once with that error, keeping the partially updated population
(earlier agents keep their new state, later agents are not visited). -/
theorem invalidProbability_failFast :
    (∀ (env : Environment) (i : ℕ) (ind : Individual) (a b c d e : ℚ) (inj : ℕ → ℚ) (k : ℕ),
        (UpdateIndividualHealthStatus env i ind a b c d e inj k).2.2 ≠ none ↔
          ¬ validProbs a b c d e)
  ∧ (∀ (env : Environment) (i : ℕ) (ind : Individual) (a b c d e : ℚ) (inj : ℕ → ℚ) (k : ℕ),
        ¬ validProbs a b c d e →
        UpdateIndividualHealthStatus env i ind a b c d e inj k = (ind, k, some invalidProbMsg))
  ∧ (∀ (env : Environment) (ps : List Probs) (inj : ℕ → ℚ) (i : ℕ) (rest : List ℕ)
        (pop : List (Option Individual)) (k : ℕ) (ind : Individual),
        pop.getD i none = some ind →
        ¬ validProbs (ps.getD i zeroProbs).a (ps.getD i zeroProbs).b (ps.getD i zeroProbs).c
          (ps.getD i zeroProbs).d (ps.getD i zeroProbs).e →
        applyPhase env ps inj (i :: rest) pop k = (pop, k, some invalidProbMsg)) := by
  refine ⟨UIHS_err_iff, UIHS_invalid_eq, ?_⟩
  intro env ps inj i rest pop k ind hget hv
  simp only [applyPhase, hget]
  rw [UIHS_invalid_eq _ _ _ _ _ _ _ _ _ _ hv]

/-- Witness for C3: a probability set with a = 2 is rejected and the agent
is returned unchanged. -/
theorem invalidProbability_failFast_witness :
    ¬ validProbs 2 0 0 0 0 ∧
      UpdateIndividualHealthStatus envW 0 indW 2 0 0 0 0 injHalf 0 =
        (indW, 0, some invalidProbMsg) :=
  ⟨by norm_num [validProbs, validProb],
    invalidProbability_failFast.2.1 envW 0 indW 2 0 0 0 0 injHalf 0
      (by norm_num [validProbs, validProb])⟩

/-! ## Pointwise behavior of the vaccination loop -/

theorem getD_of_le {α : Type} (l : List α) (d : α) :
    ∀ i : ℕ, l.length ≤ i → l.getD i d = d := by
  induction l with
  | nil => intro i _; cases i <;> rfl
  | cons hd tl ih =>
    intro i h
    cases i with
    | zero => simp at h
    | succ i => simp only [List.getD_cons_succ]; exact ih i (by simpa using h)

theorem vaccinationLoop_pointwise (inj : ℕ → ℚ) :
    ∀ (idxs : List ℕ) (pop : List (Option Individual)) (slots : ℤ) (k : ℕ) (j : ℕ),
      (vaccinationLoop inj idxs pop slots k).1.getD j none = pop.getD j none
    ∨ ∃ ind : Individual, pop.getD j none = some ind ∧ ind.vaccinated = false ∧
        (vaccinationLoop inj idxs pop slots k).1.getD j none =
          some { ind with vaccinated := true, daysSinceVacination := 0 } := by
  intro idxs
  induction idxs with
  | nil => intro pop slots k j; left; rfl
  | cons idx rest ih =>
    intro pop slots k j
    by_cases hs : slots ≤ 0
    · left
      have hrw : vaccinationLoop inj (idx :: rest) pop slots k = (pop, k, 0) := by
        simp only [vaccinationLoop, if_pos hs]
      rw [hrw]
    · rcases hg : pop.getD idx none with _ | ind
      · have hrw : (vaccinationLoop inj (idx :: rest) pop slots k).1 =
            (vaccinationLoop inj rest pop slots k).1 := by
          simp only [vaccinationLoop, if_neg hs]
          rw [hg]
        rw [hrw]; exact ih pop slots k j
      · by_cases hvac : ind.vaccinated = true
        · have hrw : (vaccinationLoop inj (idx :: rest) pop slots k).1 =
              (vaccinationLoop inj rest pop slots k).1 := by
            simp only [vaccinationLoop, if_neg hs]
            rw [hg]
            simp only [if_pos hvac]
          rw [hrw]; exact ih pop slots k j
        · by_cases hacc : inj k < acceptanceProb ind
          · have hidx : idx < pop.length := by
              by_contra hge
              push_neg at hge
              rw [getD_of_le pop none idx hge] at hg
              exact Option.noConfusion hg
            have hrw : (vaccinationLoop inj (idx :: rest) pop slots k).1 =
                (vaccinationLoop inj rest
                  (pop.set idx (some { ind with vaccinated := true, daysSinceVacination := 0 }))
                  (slots - 1) (k + 1)).1 := by
              simp only [vaccinationLoop, if_neg hs]
              rw [hg]
              simp only [if_neg hvac, if_pos hacc]
            rw [hrw]
            have hrec := ih
              (pop.set idx (some { ind with vaccinated := true, daysSinceVacination := 0 }))
              (slots - 1) (k + 1) j
            by_cases hij : idx = j
            · subst hij
              rw [getD_set_self pop _ none idx hidx] at hrec
              rcases hrec with h1 | ⟨ind2, h2, h3, _⟩
              · right
                exact ⟨ind, hg, by simpa using hvac, h1⟩
              · exfalso
                have : ({ ind with vaccinated := true, daysSinceVacination := 0 } : Individual)
                    = ind2 := by injection h2
                rw [← this] at h3
                simp at h3
            · rw [getD_set_ne pop _ none idx j hij] at hrec
              exact hrec
          · have hrw : (vaccinationLoop inj (idx :: rest) pop slots k).1 =
                (vaccinationLoop inj rest pop slots (k + 1)).1 := by
              simp only [vaccinationLoop, if_neg hs]
              rw [hg]
              simp only [if_neg hvac, if_neg hacc]
            rw [hrw]; exact ih pop slots (k + 1) j

theorem vaccinationLoop_statusAt (inj : ℕ → ℚ) (idxs : List ℕ)
    (pop : List (Option Individual)) (slots : ℤ) (k : ℕ) (j : ℕ) :
    statusAt (vaccinationLoop inj idxs pop slots k).1 j = statusAt pop j := by
  rcases vaccinationLoop_pointwise inj idxs pop slots k j with h | ⟨ind, h1, _, h3⟩
  · unfold statusAt; rw [h]
  · unfold statusAt; rw [h1, h3]; rfl

theorem UpdateVaccination_statusAt (env : Environment) (G : GlobalRand) (pc : ℕ)
    (inj : ℕ → ℚ) (k : ℕ) (j : ℕ) :
    statusAt (UpdateVaccination env G pc inj k).pop j = statusAt env.population j := by
  simp only [UpdateVaccination]
  split_ifs
  · rfl
  · rfl
  · exact vaccinationLoop_statusAt inj _ env.population _ k j

/-! ## Dead agents stay dead through every phase -/

theorem applyPhase_statusAt_dead (env : Environment) (ps : List Probs) (inj : ℕ → ℚ) :
    ∀ (l : List ℕ) (pop : List (Option Individual)) (k : ℕ) (j : ℕ),
      statusAt pop j = some HealthStatus.Dead →
      statusAt (applyPhase env ps inj l pop k).1 j = some HealthStatus.Dead := by
  intro l
  induction l with
  | nil => intro pop k j h; exact h
  | cons i rest ih =>
    intro pop k j h
    rcases hg : pop.getD i none with _ | ind
    · have hrw : applyPhase env ps inj (i :: rest) pop k = applyPhase env ps inj rest pop k := by
        simp only [applyPhase]
        rw [hg]
      rw [hrw]; exact ih pop k j h
    · rcases herr : (UpdateIndividualHealthStatus { env with population := pop } i ind
          (ps.getD i zeroProbs).a (ps.getD i zeroProbs).b (ps.getD i zeroProbs).c
          (ps.getD i zeroProbs).d (ps.getD i zeroProbs).e inj k).2.2 with _ | msg
      · have hrw : (applyPhase env ps inj (i :: rest) pop k) =
            applyPhase env ps inj rest
              (pop.set i (some (UpdateIndividualHealthStatus { env with population := pop } i ind
                (ps.getD i zeroProbs).a (ps.getD i zeroProbs).b (ps.getD i zeroProbs).c
                (ps.getD i zeroProbs).d (ps.getD i zeroProbs).e inj k).1))
              (UpdateIndividualHealthStatus { env with population := pop } i ind
                (ps.getD i zeroProbs).a (ps.getD i zeroProbs).b (ps.getD i zeroProbs).c
                (ps.getD i zeroProbs).d (ps.getD i zeroProbs).e inj k).2.1 := by
          simp only [applyPhase]
          rw [hg]
          dsimp only
          rw [herr]
        rw [hrw]
        apply ih
        by_cases hij : i = j
        · subst hij
          have hlt : i < pop.length := by
            by_contra hge
            push_neg at hge
            rw [getD_of_le pop none i hge] at hg
            exact Option.noConfusion hg
          have hindd : ind.healthStatus = HealthStatus.Dead := by
            unfold statusAt at h; rw [hg] at h; simpa using h
          unfold statusAt
          rw [getD_set_self pop _ none i hlt]
          simp [UIHS_healthStatus_dead _ _ _ _ _ _ _ _ _ _ hindd]
        · unfold statusAt
          rw [getD_set_ne pop _ none i j hij]
          exact h
      · have hrw : (applyPhase env ps inj (i :: rest) pop k).1 = pop := by
          simp only [applyPhase]
          rw [hg]
          dsimp only
          rw [herr]
        unfold statusAt
        rw [hrw]
        exact h

theorem UMP_healthStatus (s : ℚ) (ind : Individual) (G : GlobalRand) (m : ℕ) :
    (UpdateMovementPattern s ind G m).1.healthStatus = ind.healthStatus := rfl

theorem updateMove_healthStatus (F : TransFns) (s : ℚ) (ind : Individual)
    (G : GlobalRand) (m : ℕ) :
    (updateMove F s ind G m).1.healthStatus = ind.healthStatus := by
  unfold updateMove
  split
  · rfl
  · dsimp only
    rw [UMP_healthStatus]
    split <;> rfl

theorem updateMove_dead (F : TransFns) (s : ℚ) (ind : Individual) (G : GlobalRand)
    (m : ℕ) (h : ind.healthStatus = HealthStatus.Dead) :
    updateMove F s ind G m = (ind, m) := by
  simp [updateMove, h]

theorem movementPhase_statusAt (F : TransFns) (s : ℚ) (G : GlobalRand) :
    ∀ (pop : List (Option Individual)) (m : ℕ) (j : ℕ),
      statusAt (movementPhase F s G pop m).1 j = statusAt pop j := by
  intro pop
  induction pop with
  | nil => intro m j; rfl
  | cons o rest ih =>
    intro m j
    rcases o with _ | ind
    · cases j with
      | zero => rfl
      | succ j =>
        have hrw : (movementPhase F s G (none :: rest) m).1 =
            none :: (movementPhase F s G rest m).1 := by
          simp [movementPhase]
        rw [hrw]
        unfold statusAt
        simp only [List.getD_cons_succ]
        exact ih m j
    · by_cases hd : ind.healthStatus = HealthStatus.Dead
      · have hrw : (movementPhase F s G (some ind :: rest) m).1 =
            some ind :: (movementPhase F s G rest m).1 := by
          simp [movementPhase, hd]
        rw [hrw]
        cases j with
        | zero => rfl
        | succ j =>
          unfold statusAt
          simp only [List.getD_cons_succ]
          exact ih m j
      · have hrw : (movementPhase F s G (some ind :: rest) m).1 =
            some (updateMove F s ind G m).1 ::
              (movementPhase F s G rest (updateMove F s ind G m).2).1 := by
          simp [movementPhase, hd]
        rw [hrw]
        cases j with
        | zero =>
          unfold statusAt
          simp only [List.getD_cons_zero, Option.map_some']
          rw [updateMove_healthStatus]
        | succ j =>
          unfold statusAt
          simp only [List.getD_cons_succ]
          exact ih _ j

theorem uevr_population (env : Environment) (tv n : ℤ) :
    (updateEnvVaccinationRate env tv n).1.population = env.population := by
  unfold updateEnvVaccinationRate; split <;> rfl

theorem UpdateEnvironment_population (env : Environment) (inj : ℕ → ℚ) (k : ℕ) :
    (UpdateEnvironment env inj k).env.population = env.population := by
  unfold UpdateEnvironment
  split
  · rfl
  · dsimp only
    rw [uevr_population]
    rfl

theorem UPHS_statusAt_dead (F : TransFns) (env : Environment) (G : GlobalRand)
    (pc : ℕ) (inj : ℕ → ℚ) (k : ℕ) (j : ℕ)
    (h : statusAt env.population j = some HealthStatus.Dead) :
    statusAt (UpdatePopulationHealthStatus F env G pc inj k).env.population j =
      some HealthStatus.Dead := by
  unfold UpdatePopulationHealthStatus
  split
  · exact h
  · dsimp only
    apply applyPhase_statusAt_dead
    rw [UpdateVaccination_statusAt]
    exact h

theorem advanceOneDay_statusAt_dead (F : TransFns) (env : Environment) (G : GlobalRand)
    (pc : ℕ) (inj : ℕ → ℚ) (k m : ℕ) (j : ℕ)
    (h : statusAt env.population j = some HealthStatus.Dead) :
    statusAt (advanceOneDay F env G pc inj k m).env.population j =
      some HealthStatus.Dead := by
  unfold advanceOneDay
  have hp := UPHS_statusAt_dead F env G pc inj k j h
  cases herr : (UpdatePopulationHealthStatus F env G pc inj k).err with
  | some msg => simp only [herr]; exact hp
  | none =>
    simp only [herr]
    have he : statusAt (UpdateEnvironment (UpdatePopulationHealthStatus F env G pc inj k).env
        inj (UpdatePopulationHealthStatus F env G pc inj k).k).env.population j =
        some HealthStatus.Dead := by
      unfold statusAt
      rw [UpdateEnvironment_population]
      exact hp
    cases herr2 : (UpdateEnvironment (UpdatePopulationHealthStatus F env G pc inj k).env
        inj (UpdatePopulationHealthStatus F env G pc inj k).k).err with
    | some msg => simp only [herr2]; exact he
    | none =>
      simp only [herr2]
      rw [movementPhase_statusAt]
      exact he

theorem simulateDays_statusAt_dead (F : TransFns) (G : GlobalRand) (inj : ℕ → ℚ) :
    ∀ (n : ℕ) (env : Environment) (pc k m : ℕ) (j : ℕ),
      statusAt env.population j = some HealthStatus.Dead →
      statusAt (simulateDays F G inj n env pc k m).env.population j =
        some HealthStatus.Dead := by
  intro n
  induction n with
  | zero => intro env pc k m j h; exact h
  | succ n ih =>
    intro env pc k m j h
    have hd := advanceOneDay_statusAt_dead F env G pc inj k m j h
    unfold simulateDays
    cases herr : (advanceOneDay F env G pc inj k m).err with
    | some msg => simp only [herr]; exact hd
    | none => simp only [herr]; exact ih _ _ _ _ j hd

/-- C2: the per-agent update leaves a Dead agent Dead for every probability
set and every draw; over any number of simulated days no slot ever leaves
the Dead status; and every agent's health status is one of the five defined
values. -/
theorem dead_is_absorbing :
    (∀ (env : Environment) (i : ℕ) (ind : Individual) (a b c d e : ℚ)
        (inj : ℕ → ℚ) (k : ℕ), ind.healthStatus = HealthStatus.Dead →
        (UpdateIndividualHealthStatus env i ind a b c d e inj k).1.healthStatus =
          HealthStatus.Dead)
  ∧ (∀ (F : TransFns) (G : GlobalRand) (inj : ℕ → ℚ) (n : ℕ) (env : Environment)
        (pc k m : ℕ) (j : ℕ),
        statusAt env.population j = some HealthStatus.Dead →
        statusAt (simulateDays F G inj n env pc k m).env.population j =
          some HealthStatus.Dead)
  ∧ (∀ ind : Individual,
        ind.healthStatus = HealthStatus.Healthy ∨ ind.healthStatus = HealthStatus.Susceptible ∨
        ind.healthStatus = HealthStatus.Infected ∨ ind.healthStatus = HealthStatus.Recovered ∨
        ind.healthStatus = HealthStatus.Dead) := by
  refine ⟨fun env i ind a b c d e inj k h => UIHS_healthStatus_dead env i ind a b c d e inj k h,
    fun F G inj n env pc k m j h => simulateDays_statusAt_dead F G inj n env pc k m j h,
    fun ind => ?_⟩
  cases h : ind.healthStatus
  · exact Or.inl rfl
  · exact Or.inr (Or.inl rfl)
  · exact Or.inr (Or.inr (Or.inl rfl))
  · exact Or.inr (Or.inr (Or.inr (Or.inl rfl)))
  · exact Or.inr (Or.inr (Or.inr (Or.inr rfl)))

/-- Witness for C2: the concrete dead agent stays Dead across three
simulated days. -/
theorem dead_is_absorbing_witness :
    statusAt envDead.population 0 = some HealthStatus.Dead ∧
      statusAt (simulateDays F0 G0 injHalf 3 envDead 0 0 0).env.population 0 =
        some HealthStatus.Dead :=
  ⟨rfl, dead_is_absorbing.2.1 F0 G0 injHalf 3 envDead 0 0 0 0 rfl⟩

/-! ## C1: the apply phase consumes only the frozen probability table -/

theorem tableFrom_getD {α : Type} (f : ℕ → α) (d : α) :
    ∀ (len s i : ℕ), (tableFrom f s len).getD i d = if i < len then f (s + i) else d := by
  intro len
  induction len with
  | zero => intro s i; simp [tableFrom]
  | succ len ih =>
    intro s i
    cases i with
    | zero => simp [tableFrom]
    | succ i =>
      simp only [tableFrom, List.getD_cons_succ]
      rw [ih (s + 1) i]
      by_cases h : i < len
      · rw [if_pos h, if_pos (by omega)]
        congr 1
        omega
      · rw [if_neg h, if_neg (by omega)]

theorem applyPhase_eq_snapshot (env : Environment) (ps : List Probs) (probOf : ℕ → Probs)
    (inj : ℕ → ℚ) (hps : ∀ i, ps.getD i zeroProbs = probOf i) :
    ∀ (l : List ℕ) (pop : List (Option Individual)) (k : ℕ),
      applyPhase env ps inj l pop k = applyPhaseSnapshot env probOf inj l pop k := by
  intro l
  induction l with
  | nil => intro pop k; rfl
  | cons i rest ih =>
    intro pop k
    simp only [applyPhase, applyPhaseSnapshot]
    rcases hg : pop.getD i none with _ | ind
    · exact ih pop k
    · dsimp only
      rw [hps i]
      cases herr : (UpdateIndividualHealthStatus { env with population := pop } i ind
          (probOf i).a (probOf i).b (probOf i).c (probOf i).d (probOf i).e inj k).2.2 with
      | some msg => rfl
      | none =>
        dsimp only
        exact ih _ _

/-- C1: for every environment with a non-empty population and any streams,
UpdatePopulationHealthStatus equals the spec-level two-phase procedure that
computes every agent's probability set from the post-rollout, pre-apply
state and only then applies the status mutations; hence the transition
applied to agent i never influences the probability set used for agent j
within the same day. -/
theorem updatePopulation_snapshot_refinement :
    ∀ (F : TransFns) (env : Environment) (G : GlobalRand) (pc : ℕ) (inj : ℕ → ℚ) (k : ℕ),
      0 < env.population.length →
      UpdatePopulationHealthStatus F env G pc inj k = specSnapshotThenApply F env G pc inj k := by
  intro F env G pc inj k hlen
  have hnz : ¬ env.population.length = 0 := by omega
  simp only [UpdatePopulationHealthStatus, specSnapshotThenApply, if_neg hnz]
  set v := UpdateVaccination env G pc inj k with hv
  set env1 : Environment := { env with population := v.pop } with henv1
  set probOf : ℕ → Probs := fun i =>
    computeProbs F env1 (countInfected env1.population : ℤ) i (env1.population.getD i none)
    with hprob
  have hfact : ∀ i, (tableFrom probOf 0 env1.population.length).getD i zeroProbs = probOf i := by
    intro i
    rw [tableFrom_getD]
    by_cases h : i < env1.population.length
    · rw [if_pos h, Nat.zero_add]
    · rw [if_neg h, hprob]
      dsimp only
      rw [getD_of_le _ _ i (le_of_not_lt h)]
      rfl
  rw [applyPhase_eq_snapshot env1 (tableFrom probOf 0 env1.population.length) probOf inj hfact]

/-- Witness for C1 at the concrete one-agent environment. -/
theorem updatePopulation_snapshot_refinement_witness :
    0 < envW.population.length ∧
      UpdatePopulationHealthStatus F0 envW G0 0 injHalf 0 =
        specSnapshotThenApply F0 envW G0 0 injHalf 0 :=
  ⟨by simp [envW], updatePopulation_snapshot_refinement F0 envW G0 0 injHalf 0 (by simp [envW])⟩

/-! ## C7: vaccination rollout -/

theorem vaccinationLoop_count_le (inj : ℕ → ℚ) :
    ∀ (idxs : List ℕ) (pop : List (Option Individual)) (slots : ℤ) (k : ℕ),
      0 ≤ slots → (vaccinationLoop inj idxs pop slots k).2.2 ≤ slots := by
  intro idxs
  induction idxs with
  | nil =>
    intro pop slots k h
    simpa [vaccinationLoop] using h
  | cons idx rest ih =>
    intro pop slots k h
    by_cases hs : slots ≤ 0
    · have hrw : (vaccinationLoop inj (idx :: rest) pop slots k).2.2 = 0 := by
        simp only [vaccinationLoop, if_pos hs]
      rw [hrw]; exact h
    · rcases hg : pop.getD idx none with _ | ind
      · have hrw : vaccinationLoop inj (idx :: rest) pop slots k =
            vaccinationLoop inj rest pop slots k := by
          simp only [vaccinationLoop, if_neg hs]; rw [hg]
        rw [hrw]; exact ih pop slots k h
      · by_cases hvac : ind.vaccinated = true
        · have hrw : vaccinationLoop inj (idx :: rest) pop slots k =
              vaccinationLoop inj rest pop slots k := by
            simp only [vaccinationLoop, if_neg hs]; rw [hg]; simp only [if_pos hvac]
          rw [hrw]; exact ih pop slots k h
        · by_cases hacc : inj k < acceptanceProb ind
          · have hrw : (vaccinationLoop inj (idx :: rest) pop slots k).2.2 =
                (vaccinationLoop inj rest
                  (pop.set idx (some { ind with vaccinated := true, daysSinceVacination := 0 }))
                  (slots - 1) (k + 1)).2.2 + 1 := by
              simp only [vaccinationLoop, if_neg hs]; rw [hg]
              simp only [if_neg hvac, if_pos hacc]
            rw [hrw]
            have hrec := ih
              (pop.set idx (some { ind with vaccinated := true, daysSinceVacination := 0 }))
              (slots - 1) (k + 1) (by omega)
            omega
          · have hrw : vaccinationLoop inj (idx :: rest) pop slots k =
                vaccinationLoop inj rest pop slots (k + 1) := by
              simp only [vaccinationLoop, if_neg hs]; rw [hg]
              simp only [if_neg hvac, if_neg hacc]
            rw [hrw]; exact ih pop slots (k + 1) h

theorem UpdateVaccination_pointwise (env : Environment) (G : GlobalRand) (pc : ℕ)
    (inj : ℕ → ℚ) (k : ℕ) (j : ℕ) :
    (UpdateVaccination env G pc inj k).pop.getD j none = env.population.getD j none
  ∨ ∃ ind : Individual, env.population.getD j none = some ind ∧ ind.vaccinated = false ∧
      (UpdateVaccination env G pc inj k).pop.getD j none =
        some { ind with vaccinated := true, daysSinceVacination := 0 } := by
  simp only [UpdateVaccination]
  split_ifs
  · left; rfl
  · left; rfl
  · exact vaccinationLoop_pointwise inj _ env.population _ k j

/-- C7: UpdateVaccination is a no-op when the remaining target
round(vaccinationRate·N) − currentlyVaccinated is non-positive; otherwise
it vaccinates at most min(available, max(1, round(0.02·N))) agents; it
never touches an agent whose vaccinated flag is already set; and every slot
it does change held an unvaccinated agent, which ends with vaccinated true,
daysSinceVacination 0 and all other fields unchanged. -/
theorem updateVaccination_spec :
    ∀ (env : Environment) (G : GlobalRand) (pc : ℕ) (inj : ℕ → ℚ) (k : ℕ),
      (0 ≤ env.vaccinationRate → env.vaccinationRate ≤ 1 →
        goRound (env.vaccinationRate * (env.population.length : ℚ)) -
            (countVaccinated env.population : ℤ) ≤ 0 →
        UpdateVaccination env G pc inj k = ⟨env.population, pc, k, 0⟩)
    ∧ (0 ≤ env.vaccinationRate → env.vaccinationRate ≤ 1 →
        0 < goRound (env.vaccinationRate * (env.population.length : ℚ)) -
            (countVaccinated env.population : ℤ) →
        (UpdateVaccination env G pc inj k).newly ≤
          min (goRound (env.vaccinationRate * (env.population.length : ℚ)) -
              (countVaccinated env.population : ℤ))
            (max 1 (goRound (0.02 * (env.population.length : ℚ)))))
    ∧ (∀ (j : ℕ) (ind : Individual), env.population.getD j none = some ind →
        ind.vaccinated = true →
        (UpdateVaccination env G pc inj k).pop.getD j none = some ind)
    ∧ (∀ j : ℕ, (UpdateVaccination env G pc inj k).pop.getD j none ≠
          env.population.getD j none →
        ∃ ind : Individual, env.population.getD j none = some ind ∧
          ind.vaccinated = false ∧
          (UpdateVaccination env G pc inj k).pop.getD j none =
            some { ind with vaccinated := true, daysSinceVacination := 0 }) := by
  intro env G pc inj k
  refine ⟨?_, ?_, ?_, ?_⟩
  · intro h0 h1 hle
    have hcl : clamp01 env.vaccinationRate = env.vaccinationRate := clamp01_eq_self h0 h1
    simp only [UpdateVaccination, hcl, if_pos hle]
  · intro h0 h1 hpos
    have hcl : clamp01 env.vaccinationRate = env.vaccinationRate := clamp01_eq_self h0 h1
    have hmd : (1 : ℤ) ≤ max 1 (goRound (0.02 * (env.population.length : ℚ))) :=
      le_max_left _ _
    have hslots : 0 < min (goRound (env.vaccinationRate * (env.population.length : ℚ)) -
        (countVaccinated env.population : ℤ))
        (max 1 (goRound (0.02 * (env.population.length : ℚ)))) :=
      lt_min hpos (by omega)
    simp only [UpdateVaccination, hcl, if_neg (not_le.mpr hpos), if_neg (not_le.mpr hslots)]
    exact vaccinationLoop_count_le inj _ env.population _ k (le_of_lt hslots)
  · intro j ind hget hvac
    rcases UpdateVaccination_pointwise env G pc inj k j with h | ⟨ind2, h2, h3, _⟩
    · rw [h, hget]
    · exfalso
      rw [hget] at h2
      have : ind = ind2 := by injection h2
      rw [← this] at h3
      rw [hvac] at h3
      exact Bool.noConfusion h3
  · intro j hne
    rcases UpdateVaccination_pointwise env G pc inj k j with h | hr
    · exact absurd h hne
    · exact hr

/-- Witness for C7: with target coverage 0 the rollout is a no-op on the
concrete environment. -/
theorem updateVaccination_spec_witness :
    (0 : ℚ) ≤ envW.vaccinationRate ∧ envW.vaccinationRate ≤ 1 ∧
      (goRound (envW.vaccinationRate * (envW.population.length : ℚ)) -
        (countVaccinated envW.population : ℤ) ≤ 0) ∧
      UpdateVaccination envW G0 0 injHalf 0 = ⟨envW.population, 0, 0, 0⟩ := by
  have h0 : (0 : ℚ) ≤ envW.vaccinationRate := by norm_num [envW]
  have h1 : envW.vaccinationRate ≤ 1 := by norm_num [envW]
  have hle : goRound (envW.vaccinationRate * (envW.population.length : ℚ)) -
      (countVaccinated envW.population : ℤ) ≤ 0 := by
    norm_num [envW, goRound, countVaccinated, List.countP, List.countP.go, indW]
  exact ⟨h0, h1, hle, (updateVaccination_spec envW G0 0 injHalf 0).1 h0 h1 hle⟩

/-! ## C6: what does and does not apply to a Dead agent -/

/-- C6 counterexample: the daily per-agent update does change the
hygieneLevel and socialDistanceCompliance of a Dead agent (the behavioral
hooks run before the status switch with no Dead guard), refuting the claim
that no hygiene/compliance update applies once Dead. -/
theorem dead_agent_hygiene_changes :
    indDead.healthStatus = HealthStatus.Dead ∧
    (UpdateIndividualHealthStatus envDead 0 indDead 0 0 0 0 0 injHalf 0).1.hygieneLevel ≠
      indDead.hygieneLevel ∧
    (UpdateIndividualHealthStatus envDead 0 indDead 0 0 0 0 0 injHalf 0).1.socialDistanceCompliance ≠
      indDead.socialDistanceCompliance := by
  have hne : HealthStatus.Dead = HealthStatus.Infected ↔ False := by simp
  refine ⟨rfl, ?_, ?_⟩ <;>
    norm_num [UpdateIndividualHealthStatus, validProbs, validProb, updateHygieneLevel,
      updateSocialDistanceCompliance, neighborsWithin, neighborsWithinAux, distLe, sqDist,
      clamp01, healthSwitch, vaccTick, baselineMoveRadius, envDead, indDead, indW, envW,
      injHalf, hne]

theorem vaccTick_daysSinceVacination (ind : Individual) :
    (vaccTick ind).daysSinceVacination =
      if ind.vaccinated then ind.daysSinceVacination + 1 else ind.daysSinceVacination := by
  unfold vaccTick; split_ifs <;> rfl

theorem vaccTick_daysInfected (ind : Individual) :
    (vaccTick ind).daysInfected = ind.daysInfected := by
  unfold vaccTick; split_ifs <;> rfl

theorem vaccTick_daysSinceRecovery (ind : Individual) :
    (vaccTick ind).daysSinceRecovery = ind.daysSinceRecovery := by
  unfold vaccTick; split_ifs <;> rfl

theorem uhl_frame (env : Environment) (i : ℕ) (ind : Individual) (inj : ℕ → ℚ) (k : ℕ) :
    (updateHygieneLevel env i ind inj k).1.vaccinated = ind.vaccinated ∧
    (updateHygieneLevel env i ind inj k).1.daysSinceVacination = ind.daysSinceVacination ∧
    (updateHygieneLevel env i ind inj k).1.daysInfected = ind.daysInfected ∧
    (updateHygieneLevel env i ind inj k).1.daysSinceRecovery = ind.daysSinceRecovery :=
  ⟨rfl, rfl, rfl, rfl⟩

theorem usdc_frame (env : Environment) (i : ℕ) (ind : Individual) (inj : ℕ → ℚ) (k : ℕ) :
    (updateSocialDistanceCompliance env i ind inj k).2.1.vaccinated = ind.vaccinated ∧
    (updateSocialDistanceCompliance env i ind inj k).2.1.daysSinceVacination =
      ind.daysSinceVacination ∧
    (updateSocialDistanceCompliance env i ind inj k).2.1.daysInfected = ind.daysInfected ∧
    (updateSocialDistanceCompliance env i ind inj k).2.1.daysSinceRecovery =
      ind.daysSinceRecovery :=
  ⟨rfl, rfl, rfl, rfl⟩

/-- C6 amended: once an agent is Dead, no transition branch is evaluated
(the status draw is not consumed: the cursor advances by exactly the two
hook draws), its health status stays Dead, its daysInfected and
daysSinceRecovery counters are unchanged, and updateMove leaves it
untouched; however the daily behavioral hooks do still run for Dead agents
(the result is exactly the hook updates plus the vaccination-timer tick),
so hygieneLevel and socialDistanceCompliance are still updated, and the
daysSinceVacination timer of a vaccinated Dead agent still advances. -/
theorem dead_frame_amended :
    ∀ (F : TransFns) (env : Environment) (i : ℕ) (ind : Individual) (a b c d e : ℚ)
      (inj : ℕ → ℚ) (k : ℕ) (G : GlobalRand) (m : ℕ) (s : ℚ),
      ind.healthStatus = HealthStatus.Dead → validProbs a b c d e →
      (UpdateIndividualHealthStatus env i ind a b c d e inj k =
        (vaccTick (updateSocialDistanceCompliance env i (updateHygieneLevel env i ind inj k).1
            inj (updateHygieneLevel env i ind inj k).2).2.1,
          (updateSocialDistanceCompliance env i (updateHygieneLevel env i ind inj k).1
            inj (updateHygieneLevel env i ind inj k).2).2.2, none))
      ∧ (UpdateIndividualHealthStatus env i ind a b c d e inj k).2.1 = k + 2
      ∧ (UpdateIndividualHealthStatus env i ind a b c d e inj k).1.healthStatus =
          HealthStatus.Dead
      ∧ (UpdateIndividualHealthStatus env i ind a b c d e inj k).1.daysSinceVacination =
          (if ind.vaccinated then ind.daysSinceVacination + 1 else ind.daysSinceVacination)
      ∧ (UpdateIndividualHealthStatus env i ind a b c d e inj k).1.daysInfected =
          ind.daysInfected
      ∧ (UpdateIndividualHealthStatus env i ind a b c d e inj k).1.daysSinceRecovery =
          ind.daysSinceRecovery
      ∧ updateMove F s ind G m = (ind, m) := by
  intro F env i ind a b c d e inj k G m s hd hv
  have hd2 : (updateSocialDistanceCompliance env i (updateHygieneLevel env i ind inj k).1 inj
      (updateHygieneLevel env i ind inj k).2).2.1.healthStatus = HealthStatus.Dead := by
    rw [usdc_healthStatus, uhl_healthStatus]; exact hd
  have heq : UpdateIndividualHealthStatus env i ind a b c d e inj k =
      (vaccTick (updateSocialDistanceCompliance env i (updateHygieneLevel env i ind inj k).1
          inj (updateHygieneLevel env i ind inj k).2).2.1,
        (updateSocialDistanceCompliance env i (updateHygieneLevel env i ind inj k).1
          inj (updateHygieneLevel env i ind inj k).2).2.2, none) := by
    rw [UIHS_valid_eq env i ind a b c d e inj k hv, healthSwitch_dead _ a b c d e inj _ hd2]
  refine ⟨heq, ?_, UIHS_healthStatus_dead env i ind a b c d e inj k hd, ?_, ?_, ?_,
    updateMove_dead F s ind G m hd⟩
  · rw [heq]
    show (updateSocialDistanceCompliance env i (updateHygieneLevel env i ind inj k).1 inj
      (updateHygieneLevel env i ind inj k).2).2.2 = k + 2
    rw [usdc_cursor, uhl_cursor]
  · rw [heq]
    show (vaccTick (updateSocialDistanceCompliance env i (updateHygieneLevel env i ind inj k).1
        inj (updateHygieneLevel env i ind inj k).2).2.1).daysSinceVacination = _
    rw [vaccTick_daysSinceVacination, (usdc_frame env i _ inj _).1, (uhl_frame env i ind inj k).1,
      (usdc_frame env i _ inj _).2.1, (uhl_frame env i ind inj k).2.1]
  · rw [heq]
    show (vaccTick (updateSocialDistanceCompliance env i (updateHygieneLevel env i ind inj k).1
        inj (updateHygieneLevel env i ind inj k).2).2.1).daysInfected = ind.daysInfected
    rw [vaccTick_daysInfected, (usdc_frame env i _ inj _).2.2.1,
      (uhl_frame env i ind inj k).2.2.1]
  · rw [heq]
    show (vaccTick (updateSocialDistanceCompliance env i (updateHygieneLevel env i ind inj k).1
        inj (updateHygieneLevel env i ind inj k).2).2.1).daysSinceRecovery =
      ind.daysSinceRecovery
    rw [vaccTick_daysSinceRecovery, (usdc_frame env i _ inj _).2.2.2,
      (uhl_frame env i ind inj k).2.2.2]

/-- Witness for the amended C6 at the concrete dead agent. -/
theorem dead_frame_amended_witness :
    indDead.healthStatus = HealthStatus.Dead ∧ validProbs 0 0 0 0 0 ∧
      updateMove F0 10 indDead G0 0 = (indDead, 0) :=
  ⟨rfl, by norm_num [validProbs, validProb],
    (dead_frame_amended F0 envDead 0 indDead 0 0 0 0 0 injHalf 0 G0 0 10 rfl
      (by norm_num [validProbs, validProb])).2.2.2.2.2.2⟩

/-! ## C8: position bounds after movement -/

theorem UMP_position (s : ℚ) (ind : Individual) (G : GlobalRand) (m : ℕ) :
    (UpdateMovementPattern s ind G m).1.position = ind.position := rfl

theorem F0_sqrt_bounds : ∀ u : ℚ, 0 ≤ u → u < 1 → 0 ≤ F0.sqrtFn u ∧ F0.sqrtFn u < 1 := by
  intro u h0 h1
  simp only [F0]
  constructor <;> split_ifs <;> norm_num

theorem F0_cos_bound : ∀ u : ℚ, |F0.cos2pi u| ≤ 1 := by
  intro u; simp [F0]

theorem F0_sin_bound : ∀ u : ℚ, |F0.sin2pi u| ≤ 1 := by
  intro u; simp [F0]

theorem G1_flt_bounds : ∀ j : ℕ, 0 ≤ G1.flt j ∧ G1.flt j < 1 := by
  intro j; constructor <;> norm_num [G1]

theorem G0_flt_bounds : ∀ j : ℕ, 0 ≤ G0.flt j ∧ G0.flt j < 1 := by
  intro j; constructor <;> norm_num [G0]

theorem wrapCoord_mem {S x dx : ℚ} (hx0 : 0 ≤ x) (hx1 : x ≤ S) (hdl : -S ≤ dx)
    (hdr : dx ≤ S) : 0 ≤ wrapCoord S (x + dx) ∧ wrapCoord S (x + dx) ≤ S := by
  unfold wrapCoord; split_ifs <;> constructor <;> linarith

theorem stepLen_bound {s R S c : ℚ} (hs0 : 0 ≤ s) (hs1 : s < 1) (hR0 : 0 ≤ R)
    (hRS : R ≤ S) (hc : |c| ≤ 1) : |s * R * c| ≤ S := by
  have h1 : |s * R * c| = s * R * |c| := by
    rw [abs_mul (s * R) c, abs_of_nonneg (mul_nonneg hs0 hR0)]
  have h2 : s * R * |c| ≤ s * R := by
    have := mul_le_mul_of_nonneg_left hc (mul_nonneg hs0 hR0)
    simpa using this
  have h3 : s * R ≤ R := by
    calc s * R ≤ 1 * R := mul_le_mul_of_nonneg_right hs1.le hR0
    _ = R := one_mul R
  linarith

theorem updateMove_core_bounds (F : TransFns) (G : GlobalRand) (S x y R : ℚ) (m : ℕ)
    (hx0 : 0 ≤ x) (hx1 : x ≤ S) (hy0 : 0 ≤ y) (hy1 : y ≤ S) (hR0 : 0 ≤ R) (hRS : R ≤ S)
    (hsqrt : ∀ u : ℚ, 0 ≤ u → u < 1 → 0 ≤ F.sqrtFn u ∧ F.sqrtFn u < 1)
    (hcos : ∀ u : ℚ, |F.cos2pi u| ≤ 1) (hsin : ∀ u : ℚ, |F.sin2pi u| ≤ 1)
    (hflt : ∀ j : ℕ, 0 ≤ G.flt j ∧ G.flt j < 1) :
    (0 ≤ wrapCoord S (x + F.sqrtFn (G.flt m) * R * F.cos2pi (G.flt (m + 1))) ∧
      wrapCoord S (x + F.sqrtFn (G.flt m) * R * F.cos2pi (G.flt (m + 1))) ≤ S) ∧
    (0 ≤ wrapCoord S (y + F.sqrtFn (G.flt m) * R * F.sin2pi (G.flt (m + 1))) ∧
      wrapCoord S (y + F.sqrtFn (G.flt m) * R * F.sin2pi (G.flt (m + 1))) ≤ S) := by
  obtain ⟨hu0, hu1⟩ := hflt m
  obtain ⟨hs0, hs1⟩ := hsqrt (G.flt m) hu0 hu1
  have hdx := stepLen_bound hs0 hs1 hR0 hRS (hcos (G.flt (m + 1)))
  have hdy := stepLen_bound hs0 hs1 hR0 hRS (hsin (G.flt (m + 1)))
  obtain ⟨hdx1, hdx2⟩ := abs_le.mp hdx
  obtain ⟨hdy1, hdy2⟩ := abs_le.mp hdy
  exact ⟨wrapCoord_mem hx0 hx1 hdx1 hdx2, wrapCoord_mem hy0 hy1 hdy1 hdy2⟩

/-- C8 amended: for every living agent, starting position inside the
closed square [0, areaSize] on both axes, movement radius at most
areaSize, and every admissible draw (unit draws in [0,1), a square root
mapping [0,1) into [0,1), cosine and sine bounded by 1 in absolute
value), the position written by updateMove lies in the closed square
[0, areaSize] on both axes.  The strict upper bound of the original
claim is unattainable: a displaced coordinate landing exactly on
areaSize is kept (the wraparound only fires for coordinates strictly
above areaSize), so the boundary itself is reachable and the closed
square is the inductive invariant. -/
theorem updateMove_position_in_closed_area :
    ∀ (F : TransFns) (G : GlobalRand) (areaSize : ℚ) (ind : Individual) (m : ℕ),
      ind.healthStatus ≠ HealthStatus.Dead →
      0 ≤ ind.position.x → ind.position.x ≤ areaSize →
      0 ≤ ind.position.y → ind.position.y ≤ areaSize →
      ind.movementPattern.moveRadius ≤ areaSize →
      (∀ u : ℚ, 0 ≤ u → u < 1 → 0 ≤ F.sqrtFn u ∧ F.sqrtFn u < 1) →
      (∀ u : ℚ, |F.cos2pi u| ≤ 1) → (∀ u : ℚ, |F.sin2pi u| ≤ 1) →
      (∀ j : ℕ, 0 ≤ G.flt j ∧ G.flt j < 1) →
      0 ≤ (updateMove F areaSize ind G m).1.position.x ∧
        (updateMove F areaSize ind G m).1.position.x ≤ areaSize ∧
        0 ≤ (updateMove F areaSize ind G m).1.position.y ∧
        (updateMove F areaSize ind G m).1.position.y ≤ areaSize := by
  intro F G S ind m hnd hx0 hx1 hy0 hy1 hrad hsqrt hcos hsin hflt
  have hS0 : 0 ≤ S := le_trans hx0 hx1
  unfold updateMove
  rw [if_neg hnd]
  dsimp only
  by_cases hinf : ind.healthStatus = HealthStatus.Infected
  · rw [if_pos hinf]
    dsimp only
    have hR0 : (0 : ℚ) ≤ S * 0.001 := by nlinarith
    have hRS : S * 0.001 ≤ S := by nlinarith
    by_cases hr0 : S * 0.001 ≤ 0
    · rw [if_pos hr0]
      simp only [NewMovementPattern]
      rw [UMP_position]
      dsimp only
      have hb := updateMove_core_bounds F G S ind.position.x ind.position.y (S * 0.001) m
        hx0 hx1 hy0 hy1 hR0 hRS hsqrt hcos hsin hflt
      exact ⟨hb.1.1, hb.1.2, hb.2.1, hb.2.2⟩
    · rw [if_neg hr0]
      dsimp only
      rw [UMP_position]
      dsimp only
      have hb := updateMove_core_bounds F G S ind.position.x ind.position.y (S * 0.001) m
        hx0 hx1 hy0 hy1 hR0 hRS hsqrt hcos hsin hflt
      exact ⟨hb.1.1, hb.1.2, hb.2.1, hb.2.2⟩
  · rw [if_neg hinf]
    by_cases hr0 : ind.movementPattern.moveRadius ≤ 0
    · rw [if_pos hr0]
      rw [UMP_position]
      dsimp only
      rcases htype : ind.movementPattern.moveType <;>
        simp only [NewMovementPattern]
      · have hb := updateMove_core_bounds F G S ind.position.x ind.position.y (S * 0.001) m
          hx0 hx1 hy0 hy1 (by nlinarith) (by nlinarith) hsqrt hcos hsin hflt
        exact ⟨hb.1.1, hb.1.2, hb.2.1, hb.2.2⟩
      · have hb := updateMove_core_bounds F G S ind.position.x ind.position.y (S * 0.1) m
          hx0 hx1 hy0 hy1 (by nlinarith) (by nlinarith) hsqrt hcos hsin hflt
        exact ⟨hb.1.1, hb.1.2, hb.2.1, hb.2.2⟩
      · have hb := updateMove_core_bounds F G S ind.position.x ind.position.y S m
          hx0 hx1 hy0 hy1 hS0 le_rfl hsqrt hcos hsin hflt
        exact ⟨hb.1.1, hb.1.2, hb.2.1, hb.2.2⟩
    · rw [if_neg hr0]
      rw [UMP_position]
      dsimp only
      push_neg at hr0
      have hb := updateMove_core_bounds F G S ind.position.x ind.position.y
        ind.movementPattern.moveRadius m hx0 hx1 hy0 hy1 hr0.le hrad hsqrt hcos hsin hflt
      exact ⟨hb.1.1, hb.1.2, hb.2.1, hb.2.2⟩

/-- Witness for the amended C8 at the concrete agent and draws that land
exactly on the boundary. -/
theorem updateMove_position_in_closed_area_witness :
    indC8.healthStatus ≠ HealthStatus.Dead ∧
      0 ≤ (updateMove F0 4 indC8 G1 0).1.position.x ∧
      (updateMove F0 4 indC8 G1 0).1.position.x ≤ 4 :=
  ⟨by simp [indC8, indW],
    (updateMove_position_in_closed_area F0 G1 4 indC8 0 (by simp [indC8, indW])
      (by norm_num [indC8, indW]) (by norm_num [indC8, indW]) (by norm_num [indC8, indW])
      (by norm_num [indC8, indW]) (by norm_num [indC8, indW])
      F0_sqrt_bounds F0_cos_bound F0_sin_bound G1_flt_bounds).1,
    ((updateMove_position_in_closed_area F0 G1 4 indC8 0 (by simp [indC8, indW])
      (by norm_num [indC8, indW]) (by norm_num [indC8, indW]) (by norm_num [indC8, indW])
      (by norm_num [indC8, indW]) (by norm_num [indC8, indW])
      F0_sqrt_bounds F0_cos_bound F0_sin_bound G1_flt_bounds).2).1⟩

/-- C8 counterexample: the position written by updateMove can land exactly
on areaSize, so the strict invariant x < areaSize of the claim fails: with
area side 4, radius 4, start (2,2), unit draw 1/4 (square root 1/2) and
angle draw with cosine 1, the new x coordinate is exactly 4. -/
theorem updateMove_strict_bound_counterexample :
    ¬ (∀ (F : TransFns) (G : GlobalRand) (areaSize : ℚ) (ind : Individual) (m : ℕ),
        ind.healthStatus ≠ HealthStatus.Dead →
        0 ≤ ind.position.x → ind.position.x < areaSize →
        0 ≤ ind.position.y → ind.position.y < areaSize →
        ind.movementPattern.moveRadius ≤ areaSize →
        (∀ u : ℚ, 0 ≤ u → u < 1 → 0 ≤ F.sqrtFn u ∧ F.sqrtFn u < 1) →
        (∀ u : ℚ, |F.cos2pi u| ≤ 1) → (∀ u : ℚ, |F.sin2pi u| ≤ 1) →
        (∀ j : ℕ, 0 ≤ G.flt j ∧ G.flt j < 1) →
        0 ≤ (updateMove F areaSize ind G m).1.position.x ∧
          (updateMove F areaSize ind G m).1.position.x < areaSize ∧
          0 ≤ (updateMove F areaSize ind G m).1.position.y ∧
          (updateMove F areaSize ind G m).1.position.y < areaSize) := by
  intro h
  have hne1 : HealthStatus.Healthy = HealthStatus.Dead ↔ False := by simp
  have hne2 : HealthStatus.Healthy = HealthStatus.Infected ↔ False := by simp
  have hx := (h F0 G1 4 indC8 0 (by simp [indC8, indW])
      (by norm_num [indC8, indW]) (by norm_num [indC8, indW]) (by norm_num [indC8, indW])
      (by norm_num [indC8, indW]) (by norm_num [indC8, indW])
      F0_sqrt_bounds F0_cos_bound F0_sin_bound G1_flt_bounds).2.1
  have hval : (updateMove F0 4 indC8 G1 0).1.position.x = 4 := by
    norm_num [updateMove, UpdateMovementPattern, NewMovementPattern, wrapCoord, F0, G1,
      indC8, indW, hne1, hne2]
  rw [hval] at hx
  exact absurd hx (by norm_num)

/-! ## C5: disease-free states stay disease-free -/

theorem countInfected_eq_zero_iff (pop : List (Option Individual)) :
    countInfected pop = 0 ↔ noInfected pop := by
  unfold countInfected noInfected
  rw [List.countP_eq_zero]
  constructor
  · intro h o ho ind heq
    subst heq
    have h2 := h (some ind) ho
    simpa using h2
  · intro h o ho
    rcases o with _ | ind
    · simp
    · have h2 := h (some ind) ho ind rfl
      simpa using h2

theorem infectedNeighborSq_nil (who : Individual) (selfIdx : ℕ) (r : ℚ) :
    ∀ (pop : List (Option Individual)) (j : ℕ), noInfected pop →
      infectedNeighborSq who selfIdx r pop j = [] := by
  intro pop
  induction pop with
  | nil => intro j _; rfl
  | cons o rest ih =>
    intro j h
    have hrest : noInfected rest := fun o ho ind heq => h o (List.mem_cons_of_mem _ ho) ind heq
    rcases o with _ | other
    · simp only [infectedNeighborSq]
      exact ih (j + 1) hrest
    · have hni : other.healthStatus ≠ HealthStatus.Infected :=
        h (some other) (List.mem_cons_self _ _) other rfl
      simp only [infectedNeighborSq]
      rw [if_neg (by intro hcon; exact hni hcon.2.1)]
      exact ih (j + 1) hrest

theorem computeA_noInfected (env : Environment) (i : ℕ) (ind : Individual)
    (h : noInfected env.population) : computeA env i ind = 0 := by
  unfold computeA
  split
  · rfl
  · dsimp only
    rw [infectedNeighbors, infectedNeighborSq_nil ind i _ env.population 0 h]
    simp

theorem computeB_noInfected (F : TransFns) (env : Environment) (i : ℕ) (ind : Individual)
    (h : noInfected env.population) : computeB F env i ind = 0 := by
  simp only [computeB]
  cases hd : ind.disease with
  | none => rfl
  | some dz =>
    split
    · rfl
    · rw [infectedNeighbors, infectedNeighborSq_nil ind i _ env.population 0 h]
      norm_num [clamp01]

theorem computeE_bounds (F : TransFns) (env : Environment) (ind : Individual) :
    0 ≤ computeE F env ind ∧ computeE F env ind ≤ 1 := by
  simp only [computeE]
  cases hd : ind.disease with
  | none => norm_num
  | some dz =>
    split_ifs <;> dsimp only <;>
      first
        | exact ⟨clamp01_nonneg _, clamp01_le_one _⟩
        | norm_num

theorem computeProbs_noInfected (F : TransFns) (env : Environment) (it : ℤ) (i : ℕ)
    (o : Option Individual) (h : noInfected env.population)
    (ho : ∀ ind : Individual, o = some ind → ind.healthStatus ≠ HealthStatus.Infected) :
    (computeProbs F env it i o).a = 0 ∧ (computeProbs F env it i o).b = 0 ∧
    (computeProbs F env it i o).c = 0 ∧ (computeProbs F env it i o).d = 0 ∧
    0 ≤ (computeProbs F env it i o).e ∧ (computeProbs F env it i o).e ≤ 1 := by
  rcases o with _ | ind
  · simp [computeProbs, zeroProbs]
  · have hni := ho ind rfl
    rcases hst : ind.healthStatus
    case Healthy =>
      simp [computeProbs, hst, zeroProbs, computeA_noInfected env i ind h]
    case Susceptible =>
      simp [computeProbs, hst, zeroProbs, computeB_noInfected F env i ind h]
    case Infected => exact absurd hst hni
    case Recovered =>
      have hb := computeE_bounds F env ind
      simp [computeProbs, hst, zeroProbs]
      exact ⟨hb.1, hb.2⟩
    case Dead =>
      simp [computeProbs, hst, zeroProbs]

theorem healthSwitch_noInfect (ind : Individual) (c d e : ℚ) (inj : ℕ → ℚ) (k : ℕ)
    (hnn : ∀ j, 0 ≤ inj j) (hst : ind.healthStatus ≠ HealthStatus.Infected) :
    (healthSwitch ind 0 0 c d e inj k).1.healthStatus ≠ HealthStatus.Infected := by
  unfold healthSwitch
  rcases h : ind.healthStatus
  case Healthy =>
    dsimp only
    split_ifs <;> simp [h]
  case Susceptible =>
    dsimp only
    split_ifs with hlt
    · exact absurd hlt (not_lt.mpr (hnn k))
    · simp
  case Infected => exact absurd h hst
  case Recovered =>
    dsimp only
    split_ifs <;> simp [h]
  case Dead =>
    dsimp only
    simp [h]

theorem healthSwitch_susceptible_zero (ind : Individual) (a c d e : ℚ) (inj : ℕ → ℚ)
    (k : ℕ) (hst : ind.healthStatus = HealthStatus.Susceptible) (hnn : 0 ≤ inj k) :
    (healthSwitch ind a 0 c d e inj k).1.healthStatus = HealthStatus.Healthy := by
  unfold healthSwitch
  rw [hst]
  dsimp only
  split_ifs with hlt
  · exact absurd hlt (not_lt.mpr hnn)
  · rfl

theorem UIHS_noInfect (env : Environment) (i : ℕ) (ind : Individual) (a b c d e : ℚ)
    (inj : ℕ → ℚ) (k : ℕ) (ha : a = 0) (hb : b = 0) (hnn : ∀ j, 0 ≤ inj j)
    (hst : ind.healthStatus ≠ HealthStatus.Infected) :
    (UpdateIndividualHealthStatus env i ind a b c d e inj k).1.healthStatus ≠
      HealthStatus.Infected := by
  subst ha hb
  by_cases hv : validProbs 0 0 c d e
  · rw [UIHS_valid_eq env i ind 0 0 c d e inj k hv, vaccTick_healthStatus]
    apply healthSwitch_noInfect _ c d e inj _ hnn
    rw [usdc_healthStatus, uhl_healthStatus]
    exact hst
  · rw [UIHS_invalid_eq env i ind 0 0 c d e inj k hv]
    exact hst

theorem UIHS_susceptible_zero (env : Environment) (i : ℕ) (ind : Individual)
    (a b c d e : ℚ) (inj : ℕ → ℚ) (k : ℕ) (hst : ind.healthStatus = HealthStatus.Susceptible)
    (hb : b = 0) (hv : validProbs a b c d e) (hnn : ∀ j, 0 ≤ inj j) :
    (UpdateIndividualHealthStatus env i ind a b c d e inj k).1.healthStatus =
      HealthStatus.Healthy := by
  subst hb
  rw [UIHS_valid_eq env i ind a 0 c d e inj k hv, vaccTick_healthStatus]
  apply healthSwitch_susceptible_zero
  · rw [usdc_healthStatus, uhl_healthStatus]
    exact hst
  · exact hnn _

theorem noInfected_set (pop : List (Option Individual)) (i : ℕ) (x : Individual)
    (h : noInfected pop) (hx : x.healthStatus ≠ HealthStatus.Infected) :
    noInfected (pop.set i (some x)) := by
  intro o ho ind heq
  rcases List.mem_or_eq_of_mem_set ho with hmem | heo
  · exact h o hmem ind heq
  · subst heo
    obtain rfl : x = ind := by injection heq
    exact hx

theorem getD_some_mem (pop : List (Option Individual)) (i : ℕ) (ind : Individual)
    (hg : pop.getD i none = some ind) : (some ind) ∈ pop := by
  rcases getD_mem_or pop none i with hco | hco
  · rw [hg] at hco; exact Option.noConfusion hco
  · rw [hg] at hco; exact hco

theorem applyPhase_noInfected (env : Environment) (ps : List Probs) (inj : ℕ → ℚ)
    (hnn : ∀ j, 0 ≤ inj j)
    (hps : ∀ i, (ps.getD i zeroProbs).a = 0 ∧ (ps.getD i zeroProbs).b = 0) :
    ∀ (l : List ℕ) (pop : List (Option Individual)) (k : ℕ), noInfected pop →
      noInfected (applyPhase env ps inj l pop k).1 := by
  intro l
  induction l with
  | nil => intro pop k h; exact h
  | cons i rest ih =>
    intro pop k h
    rcases hg : pop.getD i none with _ | ind
    · have hrw : applyPhase env ps inj (i :: rest) pop k = applyPhase env ps inj rest pop k := by
        simp only [applyPhase]; rw [hg]
      rw [hrw]; exact ih pop k h
    · have hind : ind.healthStatus ≠ HealthStatus.Infected :=
        h (some ind) (getD_some_mem pop i ind hg) ind rfl
      rcases herr : (UpdateIndividualHealthStatus { env with population := pop } i ind
          (ps.getD i zeroProbs).a (ps.getD i zeroProbs).b (ps.getD i zeroProbs).c
          (ps.getD i zeroProbs).d (ps.getD i zeroProbs).e inj k).2.2 with _ | msg
      · have hrw : (applyPhase env ps inj (i :: rest) pop k) =
            applyPhase env ps inj rest
              (pop.set i (some (UpdateIndividualHealthStatus { env with population := pop } i ind
                (ps.getD i zeroProbs).a (ps.getD i zeroProbs).b (ps.getD i zeroProbs).c
                (ps.getD i zeroProbs).d (ps.getD i zeroProbs).e inj k).1))
              (UpdateIndividualHealthStatus { env with population := pop } i ind
                (ps.getD i zeroProbs).a (ps.getD i zeroProbs).b (ps.getD i zeroProbs).c
                (ps.getD i zeroProbs).d (ps.getD i zeroProbs).e inj k).2.1 := by
          simp only [applyPhase]
          rw [hg]
          dsimp only
          rw [herr]
        rw [hrw]
        apply ih
        apply noInfected_set pop i _ h
        exact UIHS_noInfect { env with population := pop } i ind _ _ _ _ _ inj k
          (hps i).1 (hps i).2 hnn hind
      · have hrw : (applyPhase env ps inj (i :: rest) pop k).1 = pop := by
          simp only [applyPhase]
          rw [hg]
          dsimp only
          rw [herr]
        rw [hrw]
        exact h

theorem vaccinationLoop_noInfected (inj : ℕ → ℚ) :
    ∀ (idxs : List ℕ) (pop : List (Option Individual)) (slots : ℤ) (k : ℕ),
      noInfected pop → noInfected (vaccinationLoop inj idxs pop slots k).1 := by
  intro idxs
  induction idxs with
  | nil => intro pop slots k h; exact h
  | cons idx rest ih =>
    intro pop slots k h
    by_cases hs : slots ≤ 0
    · have hrw : vaccinationLoop inj (idx :: rest) pop slots k = (pop, k, 0) := by
        simp only [vaccinationLoop, if_pos hs]
      rw [hrw]; exact h
    · rcases hg : pop.getD idx none with _ | ind
      · have hrw : (vaccinationLoop inj (idx :: rest) pop slots k).1 =
            (vaccinationLoop inj rest pop slots k).1 := by
          simp only [vaccinationLoop, if_neg hs]; rw [hg]
        rw [hrw]; exact ih pop slots k h
      · by_cases hvac : ind.vaccinated = true
        · have hrw : (vaccinationLoop inj (idx :: rest) pop slots k).1 =
              (vaccinationLoop inj rest pop slots k).1 := by
            simp only [vaccinationLoop, if_neg hs]; rw [hg]; simp only [if_pos hvac]
          rw [hrw]; exact ih pop slots k h
        · by_cases hacc : inj k < acceptanceProb ind
          · have hst : ind.healthStatus ≠ HealthStatus.Infected :=
              h (some ind) (getD_some_mem pop idx ind hg) ind rfl
            have hrw : (vaccinationLoop inj (idx :: rest) pop slots k).1 =
                (vaccinationLoop inj rest
                  (pop.set idx (some { ind with vaccinated := true, daysSinceVacination := 0 }))
                  (slots - 1) (k + 1)).1 := by
              simp only [vaccinationLoop, if_neg hs]; rw [hg]
              simp only [if_neg hvac, if_pos hacc]
            rw [hrw]
            exact ih _ _ _ (noInfected_set pop idx _ h hst)
          · have hrw : (vaccinationLoop inj (idx :: rest) pop slots k).1 =
                (vaccinationLoop inj rest pop slots (k + 1)).1 := by
              simp only [vaccinationLoop, if_neg hs]; rw [hg]
              simp only [if_neg hvac, if_neg hacc]
            rw [hrw]; exact ih pop slots (k + 1) h

theorem UpdateVaccination_noInfected (env : Environment) (G : GlobalRand) (pc : ℕ)
    (inj : ℕ → ℚ) (k : ℕ) (h : noInfected env.population) :
    noInfected (UpdateVaccination env G pc inj k).pop := by
  simp only [UpdateVaccination]
  split_ifs
  · exact h
  · exact h
  · exact vaccinationLoop_noInfected inj _ env.population _ k h

theorem movementPhase_noInfected (F : TransFns) (s : ℚ) (G : GlobalRand) :
    ∀ (pop : List (Option Individual)) (m : ℕ), noInfected pop →
      noInfected (movementPhase F s G pop m).1 := by
  intro pop
  induction pop with
  | nil => intro m h; exact h
  | cons o rest ih =>
    intro m h
    have hrest : noInfected rest := fun o ho ind heq => h o (List.mem_cons_of_mem _ ho) ind heq
    rcases o with _ | ind
    · have hrw : (movementPhase F s G (none :: rest) m).1 =
          none :: (movementPhase F s G rest m).1 := by
        simp [movementPhase]
      rw [hrw]
      intro o ho ind heq
      rcases List.mem_cons.mp ho with rfl | hmem
      · exact Option.noConfusion heq
      · exact ih m hrest o hmem ind heq
    · have hind : ind.healthStatus ≠ HealthStatus.Infected :=
        h (some ind) (List.mem_cons_self _ _) ind rfl
      by_cases hd : ind.healthStatus = HealthStatus.Dead
      · have hrw : (movementPhase F s G (some ind :: rest) m).1 =
            some ind :: (movementPhase F s G rest m).1 := by
          simp [movementPhase, hd]
        rw [hrw]
        intro o ho ind2 heq
        rcases List.mem_cons.mp ho with rfl | hmem
        · obtain rfl : ind = ind2 := by injection heq
          exact hind
        · exact ih m hrest o hmem ind2 heq
      · have hrw : (movementPhase F s G (some ind :: rest) m).1 =
            some (updateMove F s ind G m).1 ::
              (movementPhase F s G rest (updateMove F s ind G m).2).1 := by
          simp [movementPhase, hd]
        rw [hrw]
        intro o ho ind2 heq
        rcases List.mem_cons.mp ho with rfl | hmem
        · obtain rfl : (updateMove F s ind G m).1 = ind2 := by injection heq
          rw [updateMove_healthStatus]
          exact hind
        · exact ih _ hrest o hmem ind2 heq

theorem UPHS_noInfected (F : TransFns) (env : Environment) (G : GlobalRand) (pc : ℕ)
    (inj : ℕ → ℚ) (k : ℕ) (hnn : ∀ j, 0 ≤ inj j) (h : noInfected env.population) :
    noInfected (UpdatePopulationHealthStatus F env G pc inj k).env.population := by
  unfold UpdatePopulationHealthStatus
  split
  · exact h
  · dsimp only
    have hvp : noInfected (UpdateVaccination env G pc inj k).pop :=
      UpdateVaccination_noInfected env G pc inj k h
    apply applyPhase_noInfected _ _ inj hnn ?_ _ _ _ hvp
    intro i
    rw [tableFrom_getD]
    split_ifs with hi
    · rw [Nat.zero_add]
      have hcp := computeProbs_noInfected F
        { env with population := (UpdateVaccination env G pc inj k).pop }
        ((countInfected (UpdateVaccination env G pc inj k).pop : ℕ) : ℤ) i
        ((UpdateVaccination env G pc inj k).pop.getD i none) hvp
        (fun ind heq => hvp (some ind) (getD_some_mem _ i ind heq) ind rfl)
      exact ⟨hcp.1, hcp.2.1⟩
    · exact ⟨rfl, rfl⟩

theorem advanceOneDay_noInfected (F : TransFns) (env : Environment) (G : GlobalRand)
    (pc : ℕ) (inj : ℕ → ℚ) (k m : ℕ) (hnn : ∀ j, 0 ≤ inj j)
    (h : noInfected env.population) :
    noInfected (advanceOneDay F env G pc inj k m).env.population := by
  unfold advanceOneDay
  have hp := UPHS_noInfected F env G pc inj k hnn h
  cases herr : (UpdatePopulationHealthStatus F env G pc inj k).err with
  | some msg => simp only [herr]; exact hp
  | none =>
    simp only [herr]
    have he : noInfected (UpdateEnvironment (UpdatePopulationHealthStatus F env G pc inj k).env
        inj (UpdatePopulationHealthStatus F env G pc inj k).k).env.population := by
      rw [UpdateEnvironment_population]
      exact hp
    cases herr2 : (UpdateEnvironment (UpdatePopulationHealthStatus F env G pc inj k).env
        inj (UpdatePopulationHealthStatus F env G pc inj k).k).err with
    | some msg => simp only [herr2]; exact he
    | none =>
      simp only [herr2]
      exact movementPhase_noInfected F _ G _ m he

/-- C5: in an environment with zero infected agents, computeA and computeB
are 0 for every agent, a Susceptible agent with b = 0 deterministically
reverts to Healthy (the draw cannot be below 0), and one full simulated day
(vaccination rollout, health update, environment feedback, movement)
leaves the infected count at zero for every injected stream with
nonnegative draws and every global source. -/
theorem diseaseFree_day :
    (∀ (env : Environment) (i : ℕ) (ind : Individual), noInfected env.population →
        computeA env i ind = 0)
  ∧ (∀ (F : TransFns) (env : Environment) (i : ℕ) (ind : Individual),
        noInfected env.population → computeB F env i ind = 0)
  ∧ (∀ (env : Environment) (i : ℕ) (ind : Individual) (a b c d e : ℚ)
        (inj : ℕ → ℚ) (k : ℕ),
        ind.healthStatus = HealthStatus.Susceptible → b = 0 → validProbs a b c d e →
        (∀ j, 0 ≤ inj j) →
        (UpdateIndividualHealthStatus env i ind a b c d e inj k).1.healthStatus =
          HealthStatus.Healthy)
  ∧ (∀ (F : TransFns) (env : Environment) (G : GlobalRand) (pc : ℕ) (inj : ℕ → ℚ)
        (k m : ℕ),
        countInfected env.population = 0 → (∀ j, 0 ≤ inj j) →
        countInfected (advanceOneDay F env G pc inj k m).env.population = 0) := by
  refine ⟨computeA_noInfected, computeB_noInfected,
    fun env i ind a b c d e inj k hst hb hv hnn =>
      UIHS_susceptible_zero env i ind a b c d e inj k hst hb hv hnn, ?_⟩
  intro F env G pc inj k m hcount hnn
  rw [countInfected_eq_zero_iff] at hcount ⊢
  exact advanceOneDay_noInfected F env G pc inj k m hnn hcount

/-- Witness for C5 at the concrete disease-free one-agent environment. -/
theorem diseaseFree_day_witness :
    countInfected envW.population = 0 ∧ (∀ j : ℕ, 0 ≤ injHalf j) ∧
      countInfected (advanceOneDay F0 envW G0 0 injHalf 0 0).env.population = 0 := by
  have h1 : countInfected envW.population = 0 := by rfl
  have h2 : ∀ j : ℕ, 0 ≤ injHalf j := fun j => by norm_num [injHalf]
  exact ⟨h1, h2, diseaseFree_day.2.2.2 F0 envW G0 0 injHalf 0 0 h1 h2⟩

/-! ## C9: which random sources determine one simulated day -/

/-- C9 amended: one simulated day is a deterministic function of the
environment state, the injected RNG stream, and the package-global rand
source together: pointwise-identical injected streams and
pointwise-identical global sources (permutations and Float64 draws) yield
identical resulting states.  The injected stream alone does not suffice
(see the counterexample): the vaccination visiting order (rand.Perm) and
the movement and pattern-resampling draws read the package-global source. -/
theorem day_deterministic_given_both_sources :
    ∀ (F : TransFns) (env : Environment) (pc k m : ℕ) (inj inj' : ℕ → ℚ)
      (G G' : GlobalRand),
      (∀ j, inj j = inj' j) → (∀ c n, G.perm c n = G'.perm c n) →
      (∀ j, G.flt j = G'.flt j) →
      advanceOneDay F env G pc inj k m = advanceOneDay F env G' pc inj' k m := by
  intro F env pc k m inj inj' G G' hinj hperm hflt
  have h1 : inj = inj' := funext hinj
  have h2 : G = G' := by
    cases G; cases G'
    congr 1
    · exact funext fun c => funext fun n => hperm c n
    · exact funext hflt
  rw [h1, h2]

/-- Witness for the amended C9 at concrete streams. -/
theorem day_deterministic_given_both_sources_witness :
    advanceOneDay F0 envW G0 0 injHalf 0 0 = advanceOneDay F0 envW G0 0 injHalf 0 0 :=
  day_deterministic_given_both_sources F0 envW 0 0 0 injHalf injHalf G0 G0
    (fun _ => rfl) (fun _ _ => rfl) (fun _ => rfl)

set_option maxHeartbeats 4000000 in
/-- C9 counterexample: two runs of one simulated day from the same
environment with the same injected stream but different package-global
sources (all global draws 0 versus all global draws 1/4, identity
permutations in both, both admissible) produce different resulting states:
the single agent ends at different x coordinates, because updateMove draws
its displacement from the package-global source rather than the injected
stream.  This refutes the claim that every stochastic choice is drawn from
the injected stream and from nothing else. -/
theorem day_not_determined_by_injected_stream :
    ¬ (∀ (F : TransFns) (env : Environment) (pc k m : ℕ) (inj : ℕ → ℚ)
        (G G' : GlobalRand),
        (∀ j, 0 ≤ G.flt j ∧ G.flt j < 1) → (∀ j, 0 ≤ G'.flt j ∧ G'.flt j < 1) →
        (∀ c n, (G.perm c n).Perm (List.range n)) →
        (∀ c n, (G'.perm c n).Perm (List.range n)) →
        advanceOneDay F env G pc inj k m = advanceOneDay F env G' pc inj k m) := by
  intro h
  have heq := h F0 envW 0 0 0 injHalf G0 G1 G0_flt_bounds G1_flt_bounds
    (fun _ _ => List.Perm.refl _) (fun _ _ => List.Perm.refl _)
  have hne1 : HealthStatus.Healthy = HealthStatus.Infected ↔ False := by simp
  have hne2 : HealthStatus.Healthy = HealthStatus.Dead ↔ False := by simp
  have hne3 : HealthStatus.Healthy = HealthStatus.Susceptible ↔ False := by simp
  have hne4 : HealthStatus.Healthy = HealthStatus.Recovered ↔ False := by simp
  have hx := congrArg (fun r : DayResult =>
    (r.env.population.getD 0 none).map fun ind => ind.position.x) heq
  norm_num [advanceOneDay, UpdatePopulationHealthStatus, UpdateVaccination, vaccinationLoop,
    countVaccinated, countInfected, goRound, clamp01, tableFrom, computeProbs, computeA,
    computeB, computeC, computeD, computeE, thresholdR, vaccineProtection, infectedNeighbors,
    infectedNeighborSq, neighborsWithin, neighborsWithinAux, distLe, sqDist, applyPhase,
    UpdateIndividualHealthStatus, validProbs, validProb, updateHygieneLevel,
    updateSocialDistanceCompliance, baselineMoveRadius, healthSwitch, vaccTick,
    UpdateEnvironment, ComputePopulationStats, statsFold, updateSocialDistanceThreshold,
    policyStrictness, policyBoost, updateEnvHygieneLevel, updateEnvVaccinationRate,
    movementPhase, updateMove, UpdateMovementPattern, NewMovementPattern, wrapCoord,
    List.countP, List.countP.go, List.range_succ, F0, G0, G1, injHalf, envW, indW,
    zeroProbs, hne1, hne2, hne3, hne4] at hx

end PFSim
